import Mathlib

set_option maxHeartbeats 1000000
set_option maxRecDepth 8192

/-!
Verification development for the STM32 matrix-keyboard MIDI controller.

The definitions below are shallow embeddings of the C sources:
  * `src/app/midi.c`      — MIDI byte-stream encoder and note-name parser
  * `src/app/main.c`      — per-key debounce and change-to-MIDI pipeline
  * `src/drivers/MatrixKeyboard/stm32g4_matrix_keyboard.c` — column-strobe scan
  * `src/drivers/MCP23017/stm32g4_mcp23017.c`              — GPIO-expander driver

Machine integers are modelled as `Nat` (with explicit `% 2^w` or masks where
the C width matters), C strings as `List Char`, the UART transport as the
list of bytes handed to it, and the I2C bus as an external oracle answering
each transaction as a function of the transaction history.
-/

/-! ## MIDI encoder (src/app/midi.c, src/app/midi.h) -/

/-- Status byte `MIDI_NOTE_OFF` from midi.h. -/
def MIDI_NOTE_OFF : Nat := 0x80

/-- Status byte `MIDI_NOTE_ON` from midi.h. -/
def MIDI_NOTE_ON : Nat := 0x90

/-- Status byte `MIDI_CONTROL_CHANGE` from midi.h. -/
def MIDI_CONTROL_CHANGE : Nat := 0xB0

/-- Status byte `MIDI_PROGRAM_CHANGE` from midi.h. -/
def MIDI_PROGRAM_CHANGE : Nat := 0xC0

/-- Status byte `MIDI_PITCH_BEND` from midi.h. -/
def MIDI_PITCH_BEND : Nat := 0xE0

/-- Controller number `MIDI_CC_ALL_NOTES_OFF` from midi.h. -/
def MIDI_CC_ALL_NOTES_OFF : Nat := 123

/-- `MIDI_send_raw` (midi.c): hands the bytes to the UART unchanged; silent
no-op when the module flag `midi_initialized` is false or the buffer is
empty.  The result is the list of bytes put on the transport. -/
def MIDI_send_raw (inited : Bool) (data : List Nat) : List Nat :=
  if inited = false ∨ data = [] then [] else data

/-- `MIDI_send_note_on` (midi.c). -/
def MIDI_send_note_on (inited : Bool) (channel note velocity : Nat) : List Nat :=
  if channel < 1 ∨ channel > 16 ∨ note > 127 ∨ velocity > 127 then []
  else MIDI_send_raw inited [MIDI_NOTE_ON ||| (channel - 1), note, velocity]

/-- `MIDI_send_note_off` (midi.c). -/
def MIDI_send_note_off (inited : Bool) (channel note velocity : Nat) : List Nat :=
  if channel < 1 ∨ channel > 16 ∨ note > 127 ∨ velocity > 127 then []
  else MIDI_send_raw inited [MIDI_NOTE_OFF ||| (channel - 1), note, velocity]

/-- `MIDI_send_control_change` (midi.c). -/
def MIDI_send_control_change (inited : Bool) (channel controller value : Nat) : List Nat :=
  if channel < 1 ∨ channel > 16 ∨ controller > 127 ∨ value > 127 then []
  else MIDI_send_raw inited [MIDI_CONTROL_CHANGE ||| (channel - 1), controller, value]

/-- `MIDI_send_program_change` (midi.c). -/
def MIDI_send_program_change (inited : Bool) (channel program : Nat) : List Nat :=
  if channel < 1 ∨ channel > 16 ∨ program > 127 then []
  else MIDI_send_raw inited [MIDI_PROGRAM_CHANGE ||| (channel - 1), program]

/-- `MIDI_send_pitch_bend` (midi.c).  `value` is the C `int16_t` argument;
the C cast `(uint16_t)(value + 8192)` is the `% 65536` below. -/
def MIDI_send_pitch_bend (inited : Bool) (channel : Nat) (value : Int) : List Nat :=
  if channel < 1 ∨ channel > 16 then []
  else
    let bend_raw : Nat := ((value + 8192) % 65536).toNat
    let bend_value : Nat := if bend_raw > 16383 then 16383 else bend_raw
    MIDI_send_raw inited
      [MIDI_PITCH_BEND ||| (channel - 1), bend_value &&& 0x7F, (bend_value >>> 7) &&& 0x7F]

/-- `MIDI_send_all_notes_off` (midi.c): control change 123, value 0. -/
def MIDI_send_all_notes_off (inited : Bool) (channel : Nat) : List Nat :=
  MIDI_send_control_change inited channel MIDI_CC_ALL_NOTES_OFF 0

/-- The C table `const char notes[] = "C C#D D#E F F#G G#A A#B "` of
`MIDI_note_name_to_number`, read as the twelve pairs `(notes[2i], notes[2i+1])`. -/
def noteNamePairs : List (Char × Char) :=
  [('C', ' '), ('C', '#'), ('D', ' '), ('D', '#'), ('E', ' '), ('F', ' '),
   ('F', '#'), ('G', ' '), ('G', '#'), ('A', ' '), ('A', '#'), ('B', ' ')]

/-- The semitone-search loop of `MIDI_note_name_to_number`: first `i < 12`
whose table pair matches the (possibly rewritten) letter and accidental. -/
def findSemitone (note_char accidental : Char) : Option Nat :=
  (List.range 12).find? (fun i =>
    let p := noteNamePairs.getD i (' ', ' ')
    p.1 == note_char &&
      ((accidental == '#' && p.2 == '#') || (accidental != '#' && p.2 == ' ')))

/-- `MIDI_note_name_to_number` (midi.c), on the C string as a `List Char`.
`Char.ofNat 0` stands for the C `'\0'` assigned when the length is 2. -/
def MIDI_note_name_to_number (note_name : List Char) : Nat :=
  if note_name.length < 2 then 255
  else
    let nc0 := note_name.getD 0 ' '
    let acc0 : Char := if note_name.length > 2 then note_name.getD 1 ' ' else Char.ofNat 0
    let conv : Option (Char × Char) :=
      if acc0 = 'b' then
        match nc0 with
        | 'D' => some ('C', '#')
        | 'E' => some ('D', '#')
        | 'G' => some ('F', '#')
        | 'A' => some ('G', '#')
        | 'B' => some ('A', '#')
        | _ => none
      else some (nc0, acc0)
    match conv with
    | none => 255
    | some (note_char, accidental) =>
      match findSemitone note_char accidental with
      | none => 255
      | some semitone =>
        let octave_pos : Nat := if accidental = '#' ∨ accidental = 'b' then 2 else 1
        if note_name.length ≤ octave_pos then 255
        else
          let octave : Int := ((note_name.getD octave_pos ' ').toNat : Int) - 48
          if octave < 0 ∨ octave > 9 then 255
          else
            let midi_note : Int := (octave + 1) * 12 + (semitone : Int)
            if 0 ≤ midi_note ∧ midi_note ≤ 127 then midi_note.toNat else 255

/-- The note spelling, as a character list, of semitone `s` (0..11) in the
sharp-based convention of the parser's table. -/
def semitoneName (s : Fin 12) : List Char :=
  match s with
  | 0 => ['C'] | 1 => ['C', '#'] | 2 => ['D'] | 3 => ['D', '#'] | 4 => ['E'] | 5 => ['F']
  | 6 => ['F', '#'] | 7 => ['G'] | 8 => ['G', '#'] | 9 => ['A'] | 10 => ['A', '#'] | 11 => ['B']

/-- The MIDI number the spec assigns to octave digit `d` and semitone `s`:
`(d+1)*12 + s` when that lies in 0..127, and 255 otherwise. -/
def specNoteNumber (d : Fin 10) (s : Fin 12) : Nat :=
  if (d.val + 1) * 12 + s.val ≤ 127 then (d.val + 1) * 12 + s.val else 255

/-- The ASCII digit character of `d`. -/
def digitChar (d : Fin 10) : Char := Char.ofNat (48 + d.val)

/-- C6: `MIDI_note_name_to_number` parses letter, optional accidental and
octave digit; flats normalize to the sharp of the adjacent letter (invalid
on C and F); the result is `(octave+1)*12 + semitone` when in 0..127 and
255 otherwise; `"C4" = 60`, `"A4" = 69`, `"Db5" = "C#5"`, and `"H4"`,
`"C"`, `""` give 255. -/
theorem C6_note_name_to_number :
    MIDI_note_name_to_number ['C', '4'] = 60 ∧
    MIDI_note_name_to_number ['A', '4'] = 69 ∧
    MIDI_note_name_to_number ['D', 'b', '5'] = MIDI_note_name_to_number ['C', '#', '5'] ∧
    MIDI_note_name_to_number ['H', '4'] = 255 ∧
    MIDI_note_name_to_number ['C'] = 255 ∧
    MIDI_note_name_to_number [] = 255 ∧
    (∀ d : Fin 10,
      MIDI_note_name_to_number ['D', 'b', digitChar d] =
        MIDI_note_name_to_number ['C', '#', digitChar d] ∧
      MIDI_note_name_to_number ['E', 'b', digitChar d] =
        MIDI_note_name_to_number ['D', '#', digitChar d] ∧
      MIDI_note_name_to_number ['G', 'b', digitChar d] =
        MIDI_note_name_to_number ['F', '#', digitChar d] ∧
      MIDI_note_name_to_number ['A', 'b', digitChar d] =
        MIDI_note_name_to_number ['G', '#', digitChar d] ∧
      MIDI_note_name_to_number ['B', 'b', digitChar d] =
        MIDI_note_name_to_number ['A', '#', digitChar d] ∧
      MIDI_note_name_to_number ['C', 'b', digitChar d] = 255 ∧
      MIDI_note_name_to_number ['F', 'b', digitChar d] = 255) ∧
    (∀ d : Fin 10, ∀ s : Fin 12,
      MIDI_note_name_to_number (semitoneName s ++ [digitChar d]) = specNoteNumber d s) := by
  decide

/-- C4 (counterexample): the claim says every encoder validates the stated
ranges and is a silent no-op on any violation; but `MIDI_send_pitch_bend`
with the out-of-range value 8192 still emits bytes (the value is clamped,
not rejected), and `MIDI_send_note_on` with velocity 0 (outside the stated
1..127) also emits bytes. -/
theorem C4_validation_counterexample :
    MIDI_send_pitch_bend true 1 8192 ≠ [] ∧ MIDI_send_note_on true 1 60 0 ≠ [] := by
  decide

/-- C4 (amended): `note_off`, `control_change`, `program_change` and
`all_notes_off` validate exactly the stated ranges and emit zero bytes on
violation; `note_on` validates velocity 0..127 (velocity 0 is accepted, not
rejected); `pitch_bend` validates only the channel, and for a valid channel
always emits exactly 3 bytes, clamping the 16-bit-wrapped value into
0..16383 instead of rejecting out-of-range values. -/
theorem C4_encoder_validation :
    ∀ channel note velocity controller value program : Nat,
    (MIDI_send_note_on true channel note velocity = [] ↔
      ¬(1 ≤ channel ∧ channel ≤ 16 ∧ note ≤ 127 ∧ velocity ≤ 127)) ∧
    (MIDI_send_note_off true channel note velocity = [] ↔
      ¬(1 ≤ channel ∧ channel ≤ 16 ∧ note ≤ 127 ∧ velocity ≤ 127)) ∧
    (MIDI_send_control_change true channel controller value = [] ↔
      ¬(1 ≤ channel ∧ channel ≤ 16 ∧ controller ≤ 127 ∧ value ≤ 127)) ∧
    (MIDI_send_program_change true channel program = [] ↔
      ¬(1 ≤ channel ∧ channel ≤ 16 ∧ program ≤ 127)) ∧
    (MIDI_send_all_notes_off true channel = [] ↔ ¬(1 ≤ channel ∧ channel ≤ 16)) ∧
    (∀ v : Int, -32768 ≤ v → v ≤ 32767 →
      (MIDI_send_pitch_bend true channel v = [] ↔ ¬(1 ≤ channel ∧ channel ≤ 16)) ∧
      ((MIDI_send_pitch_bend true channel v).length = 3 ∨
        ¬(1 ≤ channel ∧ channel ≤ 16))) := by
  intro channel note velocity controller value program
  refine ⟨?_, ?_, ?_, ?_, ?_, ?_⟩
  · unfold MIDI_send_note_on MIDI_send_raw
    split
    · simp; omega
    · simp; omega
  · unfold MIDI_send_note_off MIDI_send_raw
    split
    · simp; omega
    · simp; omega
  · unfold MIDI_send_control_change MIDI_send_raw
    split
    · simp; omega
    · simp; omega
  · unfold MIDI_send_program_change MIDI_send_raw
    split
    · simp; omega
    · simp; omega
  · unfold MIDI_send_all_notes_off MIDI_send_control_change MIDI_send_raw MIDI_CC_ALL_NOTES_OFF
    split
    · simp; omega
    · simp; omega
  · intro v _ _
    unfold MIDI_send_pitch_bend MIDI_send_raw
    constructor
    · split
      · simp; omega
      · simp; omega
    · split
      · right; omega
      · left; simp

/-- Witness for `C4_encoder_validation` at channel 1, pitch value 8192. -/
theorem C4_encoder_validation_witness :
    (-32768 ≤ (8192 : Int)) ∧ ((8192 : Int) ≤ 32767) ∧
    ((MIDI_send_pitch_bend true 1 8192).length = 3 ∨ ¬(1 ≤ 1 ∧ 1 ≤ 16)) := by
  exact ⟨by decide, by decide,
    ((C4_encoder_validation 1 60 100 0 0 0).2.2.2.2.2 8192 (by decide) (by decide)).2⟩

/-! ## Keyboard state, debounce and change detection (src/app/main.c) -/

/-- `DEBOUNCE_COUNT` from main.c. -/
def DEBOUNCE_COUNT : Nat := 3

/-- `MAX_MATRIX_KEYS` from main.c. -/
def MAX_MATRIX_KEYS : Nat := 64

/-- The table `static const uint8_t midi_notes[64]` from main.c. -/
def midi_notes : List Nat :=
  [48, 49, 50, 51, 52, 53, 54, 55,
   56, 57, 58, 59, 60, 61, 62, 63,
   64, 65, 66, 67, 68, 69, 70, 71,
   72, 73, 74, 75, 76, 77, 78, 79,
   80, 81, 82, 83, 84, 85, 86, 87,
   88, 89, 90, 91, 92, 93, 94, 95,
   96, 97, 98, 99, 100, 101, 102, 103,
   104, 105, 106, 107, 108, 109, 110, 111]

/-- `KeyboardState_t` from main.c.  The two bitmaps are C `uint32_t`
(kept `< 2^32` by the reachable dynamics); `debounce_counter` is the
64-entry `uint8_t` array, as a function on indices. -/
structure KeyboardState where
  current_state : Nat
  previous_state : Nat
  debounce_counter : Nat → Nat
  stable_state : Nat

/-- One iteration of the per-key loop of `Update_Keyboard_State` at key `i`,
acting on the pair (stable bitmap, counter array).  `1UL << i` is `1 <<< i`;
`&= ~(1UL << i)` is the conjunction with the 32-bit complement mask; the
`uint8_t` counter increment carries its `% 256`. -/
def updateKeyStep (raw_state : Nat) (s : Nat × (Nat → Nat)) (i : Nat) : Nat × (Nat → Nat) :=
  let stable := s.1
  let cnt := s.2
  let raw_pressed := raw_state.testBit i
  let stable_pressed := stable.testBit i
  if raw_pressed = stable_pressed then
    (stable, Function.update cnt i 0)
  else
    let c := (cnt i + 1) % 256
    if DEBOUNCE_COUNT ≤ c then
      (if raw_pressed then stable ||| (1 <<< i)
       else stable &&& ((2 ^ 32 - 1) ^^^ (1 <<< i)),
       Function.update cnt i 0)
    else (stable, Function.update cnt i c)

/-- The `for (i = 0; i < n; i++)` loop of `Update_Keyboard_State`:
keys `0..n-1` processed in ascending order. -/
def updateLoop (raw_state : Nat) (s : Nat × (Nat → Nat)) : Nat → Nat × (Nat → Nat)
  | 0 => s
  | n + 1 => updateKeyStep raw_state (updateLoop raw_state s n) n

/-- `Update_Keyboard_State` (main.c): snapshot `previous_state`, run the
per-key debounce loop over all 64 keys, and copy the stable bitmap into
`current_state`. -/
def Update_Keyboard_State (kbd : KeyboardState) (raw_state : Nat) : KeyboardState :=
  let p := updateLoop raw_state (kbd.stable_state, kbd.debounce_counter) MAX_MATRIX_KEYS
  { current_state := p.1
    previous_state := kbd.stable_state
    debounce_counter := p.2
    stable_state := p.1 }

/-- The body of the per-key loop of `Update_Keyboard_State` restricted to one
key: from (stable bit, counter, raw bit) to (new stable bit, new counter).
This is the per-key debounce state machine of spec §4.3. -/
def debounceKey (stable_pressed : Bool) (cnt : Nat) (raw_pressed : Bool) : Bool × Nat :=
  if raw_pressed = stable_pressed then (stable_pressed, 0)
  else
    let c := (cnt + 1) % 256
    if DEBOUNCE_COUNT ≤ c then (raw_pressed, 0) else (stable_pressed, c)

/-- `Send_MIDI_Note` (main.c): channel 1, velocity 100 for Note On,
velocity 0 for Note Off; returns the bytes emitted for this key. -/
def Send_MIDI_Note (key_index : Nat) (pressed : Bool) : List Nat :=
  if key_index ≥ MAX_MATRIX_KEYS then []
  else
    let midi_note := midi_notes.getD key_index 0
    if pressed then MIDI_send_note_on true 1 midi_note 100
    else MIDI_send_note_off true 1 midi_note 0

/-- `Process_Key_Changes` (main.c): XOR change detection, then one message
per changed key, keys visited in ascending index order.  The result is the
list of MIDI messages emitted this cycle. -/
def Process_Key_Changes (kbd : KeyboardState) : List (List Nat) :=
  let changes := kbd.current_state ^^^ kbd.previous_state
  if changes = 0 then []
  else
    (List.range MAX_MATRIX_KEYS).filterMap (fun i =>
      if changes.testBit i then some (Send_MIDI_Note i (kbd.current_state.testBit i))
      else none)

/-- The zeroed startup state (`memset(&keyboard_state, 0, ...)` in main). -/
def keyboardStartState : KeyboardState :=
  { current_state := 0, previous_state := 0, debounce_counter := fun _ => 0, stable_state := 0 }

/-- Iterated scan cycles: fold `Update_Keyboard_State` over a list of raw
bitmaps. -/
def runUpdates (kbd : KeyboardState) (raws : List Nat) : KeyboardState :=
  raws.foldl Update_Keyboard_State kbd

lemma testBit_false_of_ge_32 {x j : Nat} (hx : x < 2 ^ 32) (hj : 32 ≤ j) :
    x.testBit j = false :=
  Nat.testBit_lt_two_pow (lt_of_lt_of_le hx (Nat.pow_le_pow_right (by norm_num) hj))

lemma lt_32_of_testBit {x j : Nat} (hx : x < 2 ^ 32) (h : x.testBit j = true) : j < 32 := by
  by_contra hj
  rw [testBit_false_of_ge_32 hx (le_of_not_lt hj)] at h
  exact Bool.false_ne_true h

lemma updateKeyStep_spec (raw : Nat) (s : Nat × (Nat → Nat)) (i : Nat)
    (hraw : raw < 2 ^ 32) (hs : s.1 < 2 ^ 32) :
    (updateKeyStep raw s i).1 < 2 ^ 32 ∧
    (∀ j, j ≠ i → (updateKeyStep raw s i).1.testBit j = s.1.testBit j) ∧
    ((updateKeyStep raw s i).1.testBit i =
      (debounceKey (s.1.testBit i) (s.2 i) (raw.testBit i)).1) ∧
    (∀ j, j ≠ i → (updateKeyStep raw s i).2 j = s.2 j) ∧
    ((updateKeyStep raw s i).2 i =
      (debounceKey (s.1.testBit i) (s.2 i) (raw.testBit i)).2) := by
  unfold updateKeyStep debounceKey
  by_cases hA : raw.testBit i = s.1.testBit i
  · simp only [hA, if_pos rfl, if_true]
    refine ⟨hs, fun j hj => by trivial, by simp, fun j hj => Function.update_noteq hj 0 s.2,
      Function.update_same i 0 s.2⟩
  · simp only [if_neg hA]
    by_cases hC : DEBOUNCE_COUNT ≤ (s.2 i + 1) % 256
    · simp only [if_pos hC]
      cases hrb : raw.testBit i with
      | true =>
        have hi32 : i < 32 := lt_32_of_testBit hraw hrb
        have h2i : (1 <<< i : Nat) < 2 ^ 32 := by
          rw [Nat.one_shiftLeft]
          exact Nat.pow_lt_pow_right (by norm_num) hi32
        refine ⟨?_, ?_, ?_, ?_, ?_⟩
        · simpa [hrb] using Nat.or_lt_two_pow hs h2i
        · intro j hj
          simp [hrb, Nat.testBit_or, Nat.one_shiftLeft, Nat.testBit_two_pow,
            (Ne.symm hj : ¬ i = j)]
        · simp [hrb, Nat.testBit_or, Nat.one_shiftLeft, Nat.testBit_two_pow]
        · intro j hj
          simp [Function.update_noteq hj]
        · simp
      | false =>
        have hsb : s.1.testBit i = true := by
          cases h : s.1.testBit i with
          | true => rfl
          | false => rw [hrb, h] at hA; exact absurd rfl hA
        have hi32 : i < 32 := lt_32_of_testBit hs hsb
        refine ⟨?_, ?_, ?_, ?_, ?_⟩
        · simpa [hrb] using lt_of_le_of_lt (Nat.and_le_left (m := (2 ^ 32 - 1) ^^^ (1 <<< i))) hs
        · intro j hj
          simp only [hrb, if_neg, Bool.false_eq_true, ite_false]
          rw [Nat.testBit_and, Nat.testBit_xor, Nat.testBit_two_pow_sub_one,
            Nat.one_shiftLeft, Nat.testBit_two_pow]
          by_cases hj32 : j < 32
          · simp [hj32, (Ne.symm hj : ¬ i = j)]
          · simp [testBit_false_of_ge_32 hs (le_of_not_lt hj32)]
        · simp only [hrb, Bool.false_eq_true, ite_false]
          rw [Nat.testBit_and, Nat.testBit_xor, Nat.testBit_two_pow_sub_one,
            Nat.one_shiftLeft, Nat.testBit_two_pow]
          simp [hi32, hsb]
        · intro j hj
          simp [Function.update_noteq hj]
        · simp
    · simp only [if_neg hC]
      refine ⟨hs, fun j hj => by trivial, by simp [if_neg hA], fun j hj => Function.update_noteq hj _ s.2,
        by simp [Function.update_same, if_neg hA]⟩

lemma updateLoop_spec (raw_state stable : Nat) (cnt : Nat → Nat)
    (hraw : raw_state < 2 ^ 32) (hst : stable < 2 ^ 32) :
    ∀ n,
    (updateLoop raw_state (stable, cnt) n).1 < 2 ^ 32 ∧
    (∀ j, (updateLoop raw_state (stable, cnt) n).1.testBit j =
      if j < n then (debounceKey (stable.testBit j) (cnt j) (raw_state.testBit j)).1
      else stable.testBit j) ∧
    (∀ j, (updateLoop raw_state (stable, cnt) n).2 j =
      if j < n then (debounceKey (stable.testBit j) (cnt j) (raw_state.testBit j)).2
      else cnt j) := by
  intro n
  induction n with
  | zero =>
    refine ⟨hst, ?_, ?_⟩ <;> intro j <;> simp [updateLoop]
  | succ n ih =>
    obtain ⟨ih1, ih2, ih3⟩ := ih
    have hsn : (updateLoop raw_state (stable, cnt) n).1.testBit n = stable.testBit n := by
      rw [ih2]; simp
    have hcn : (updateLoop raw_state (stable, cnt) n).2 n = cnt n := by
      rw [ih3]; simp
    obtain ⟨k1, k2, k3, k4, k5⟩ :=
      updateKeyStep_spec raw_state (updateLoop raw_state (stable, cnt) n) n hraw ih1
    refine ⟨k1, ?_, ?_⟩
    · intro j
      by_cases hj : j = n
      · subst hj
        rw [show updateLoop raw_state (stable, cnt) (j + 1)
              = updateKeyStep raw_state (updateLoop raw_state (stable, cnt) j) j from rfl,
          k3, hsn, hcn]
        simp
      · rw [show updateLoop raw_state (stable, cnt) (n + 1)
              = updateKeyStep raw_state (updateLoop raw_state (stable, cnt) n) n from rfl,
          k2 j hj, ih2 j]
        rcases Nat.lt_or_ge j n with h | h
        · rw [if_pos h, if_pos (Nat.lt_succ_of_lt h)]
        · have h1 : ¬ j < n := Nat.not_lt.mpr h
          have h2 : ¬ j < n + 1 := by omega
          rw [if_neg h1, if_neg h2]
    · intro j
      by_cases hj : j = n
      · subst hj
        rw [show updateLoop raw_state (stable, cnt) (j + 1)
              = updateKeyStep raw_state (updateLoop raw_state (stable, cnt) j) j from rfl,
          k5, hsn, hcn]
        simp
      · rw [show updateLoop raw_state (stable, cnt) (n + 1)
              = updateKeyStep raw_state (updateLoop raw_state (stable, cnt) n) n from rfl,
          k4 j hj, ih3 j]
        rcases Nat.lt_or_ge j n with h | h
        · rw [if_pos h, if_pos (Nat.lt_succ_of_lt h)]
        · have h1 : ¬ j < n := Nat.not_lt.mpr h
          have h2 : ¬ j < n + 1 := by omega
          rw [if_neg h1, if_neg h2]

lemma Update_Keyboard_State_spec (kbd : KeyboardState) (raw : Nat)
    (hraw : raw < 2 ^ 32) (hst : kbd.stable_state < 2 ^ 32) :
    (Update_Keyboard_State kbd raw).stable_state < 2 ^ 32 ∧
    (Update_Keyboard_State kbd raw).current_state = (Update_Keyboard_State kbd raw).stable_state ∧
    (Update_Keyboard_State kbd raw).previous_state = kbd.stable_state ∧
    (∀ j, (Update_Keyboard_State kbd raw).stable_state.testBit j =
      if j < 64 then
        (debounceKey (kbd.stable_state.testBit j) (kbd.debounce_counter j) (raw.testBit j)).1
      else kbd.stable_state.testBit j) ∧
    (∀ j, (Update_Keyboard_State kbd raw).debounce_counter j =
      if j < 64 then
        (debounceKey (kbd.stable_state.testBit j) (kbd.debounce_counter j) (raw.testBit j)).2
      else kbd.debounce_counter j) := by
  obtain ⟨h1, h2, h3⟩ :=
    updateLoop_spec raw kbd.stable_state kbd.debounce_counter hraw hst MAX_MATRIX_KEYS
  exact ⟨h1, rfl, rfl, h2, h3⟩

lemma debounceKey_opp_lt (sb : Bool) (c : Nat) (hc : c + 1 < 3) :
    debounceKey sb c (!sb) = (sb, c + 1) := by
  have hmod : (c + 1) % 256 = c + 1 := Nat.mod_eq_of_lt (by omega)
  cases sb <;> simp [debounceKey, DEBOUNCE_COUNT, hmod] <;> omega

lemma debounceKey_opp_commit (sb : Bool) (c : Nat) (h2 : 3 ≤ c + 1) (hc : c + 1 < 256) :
    debounceKey sb c (!sb) = (!sb, 0) := by
  have hmod : (c + 1) % 256 = c + 1 := Nat.mod_eq_of_lt hc
  cases sb <;> simp [debounceKey, DEBOUNCE_COUNT, hmod] <;> omega

lemma debounceKey_agree (sb : Bool) (c : Nat) : debounceKey sb c sb = (sb, 0) := by
  cases sb <;> simp [debounceKey]

lemma debounceKey_cnt_le (sb : Bool) (c : Nat) (rb : Bool) : (debounceKey sb c rb).2 ≤ 2 := by
  unfold debounceKey DEBOUNCE_COUNT
  split
  · simp
  · simp only []
    by_cases h : 3 ≤ (c + 1) % 256
    · simp [h]
    · simp only [if_neg h]; omega

lemma update_bit_agree (kbd : KeyboardState) (raw i : Nat)
    (hraw : raw < 2 ^ 32) (hst : kbd.stable_state < 2 ^ 32) (hi : i < 64)
    (h : raw.testBit i = kbd.stable_state.testBit i) :
    (Update_Keyboard_State kbd raw).stable_state.testBit i = kbd.stable_state.testBit i ∧
    (Update_Keyboard_State kbd raw).debounce_counter i = 0 := by
  obtain ⟨_, _, _, h4, h5⟩ := Update_Keyboard_State_spec kbd raw hraw hst
  constructor
  · rw [h4 i, if_pos hi, h, debounceKey_agree]
  · rw [h5 i, if_pos hi, h, debounceKey_agree]

lemma update_bit_opp_lt (kbd : KeyboardState) (raw i : Nat)
    (hraw : raw < 2 ^ 32) (hst : kbd.stable_state < 2 ^ 32) (hi : i < 64)
    (hc : kbd.debounce_counter i + 1 < 3)
    (h : raw.testBit i = !kbd.stable_state.testBit i) :
    (Update_Keyboard_State kbd raw).stable_state.testBit i = kbd.stable_state.testBit i ∧
    (Update_Keyboard_State kbd raw).debounce_counter i = kbd.debounce_counter i + 1 := by
  obtain ⟨_, _, _, h4, h5⟩ := Update_Keyboard_State_spec kbd raw hraw hst
  constructor
  · rw [h4 i, if_pos hi, h, debounceKey_opp_lt _ _ hc]
  · rw [h5 i, if_pos hi, h, debounceKey_opp_lt _ _ hc]

lemma update_bit_opp_commit (kbd : KeyboardState) (raw i : Nat)
    (hraw : raw < 2 ^ 32) (hst : kbd.stable_state < 2 ^ 32) (hi : i < 64)
    (h2 : 3 ≤ kbd.debounce_counter i + 1) (h256 : kbd.debounce_counter i + 1 < 256)
    (h : raw.testBit i = !kbd.stable_state.testBit i) :
    (Update_Keyboard_State kbd raw).stable_state.testBit i = (!kbd.stable_state.testBit i) ∧
    (Update_Keyboard_State kbd raw).debounce_counter i = 0 := by
  obtain ⟨_, _, _, h4, h5⟩ := Update_Keyboard_State_spec kbd raw hraw hst
  constructor
  · rw [h4 i, if_pos hi, h, debounceKey_opp_commit _ _ h2 h256]
  · rw [h5 i, if_pos hi, h, debounceKey_opp_commit _ _ h2 h256]

/-- Three chained per-key debounce steps (the per-key view of three
successive `Update_Keyboard_State` calls). -/
def debounceKey3 (sb : Bool) (c : Nat) (b1 b2 b3 : Bool) : Bool × Nat :=
  let p1 := debounceKey sb c b1
  let p2 := debounceKey p1.1 p1.2 b2
  debounceKey p2.1 p2.2 b3

/-- C2: from a zero debounce counter, three consecutive cycles whose raw
bit `i` opposes the current stable bit `i` leave bit `i` unchanged for two
cycles, flip exactly bit `i` on the third, and reset counter `i` to 0;
every other key's stable bit and counter are determined by that key's own
bits alone (key `i`'s transition does not affect them). -/
theorem C2_three_cycles_flip :
    ∀ (kbd : KeyboardState) (i r1 r2 r3 : Nat),
    i < 64 → kbd.stable_state < 2 ^ 32 →
    r1 < 2 ^ 32 → r2 < 2 ^ 32 → r3 < 2 ^ 32 →
    kbd.debounce_counter i = 0 →
    r1.testBit i = !kbd.stable_state.testBit i →
    r2.testBit i = !(Update_Keyboard_State kbd r1).stable_state.testBit i →
    r3.testBit i =
      !(Update_Keyboard_State (Update_Keyboard_State kbd r1) r2).stable_state.testBit i →
    ((Update_Keyboard_State kbd r1).stable_state.testBit i = kbd.stable_state.testBit i ∧
     (Update_Keyboard_State (Update_Keyboard_State kbd r1) r2).stable_state.testBit i =
       kbd.stable_state.testBit i ∧
     (runUpdates kbd [r1, r2, r3]).stable_state.testBit i = (!kbd.stable_state.testBit i) ∧
     (runUpdates kbd [r1, r2, r3]).debounce_counter i = 0) ∧
    (∀ j, j < 64 → j ≠ i →
      (runUpdates kbd [r1, r2, r3]).stable_state.testBit j =
        (debounceKey3 (kbd.stable_state.testBit j) (kbd.debounce_counter j)
          (r1.testBit j) (r2.testBit j) (r3.testBit j)).1 ∧
      (runUpdates kbd [r1, r2, r3]).debounce_counter j =
        (debounceKey3 (kbd.stable_state.testBit j) (kbd.debounce_counter j)
          (r1.testBit j) (r2.testBit j) (r3.testBit j)).2) := by
  intro kbd i r1 r2 r3 hi hst hr1 hr2 hr3 hc0 hb1 hb2 hb3
  have hrun : runUpdates kbd [r1, r2, r3] =
      Update_Keyboard_State (Update_Keyboard_State (Update_Keyboard_State kbd r1) r2) r3 := rfl
  have hs1 : (Update_Keyboard_State kbd r1).stable_state < 2 ^ 32 :=
    (Update_Keyboard_State_spec kbd r1 hr1 hst).1
  obtain ⟨e1, e1c⟩ := update_bit_opp_lt kbd r1 i hr1 hst hi (by omega) hb1
  have hs2 : (Update_Keyboard_State (Update_Keyboard_State kbd r1) r2).stable_state < 2 ^ 32 :=
    (Update_Keyboard_State_spec _ r2 hr2 hs1).1
  obtain ⟨e2, e2c⟩ := update_bit_opp_lt (Update_Keyboard_State kbd r1) r2 i hr2 hs1 hi
    (by omega) (by rw [hb2, e1])
  obtain ⟨e3, e3c⟩ := update_bit_opp_commit
    (Update_Keyboard_State (Update_Keyboard_State kbd r1) r2) r3 i hr3 hs2 hi
    (by omega) (by omega) (by rw [hb3, e2, e1])
  refine ⟨⟨e1, by rw [e2, e1], ?_, ?_⟩, ?_⟩
  · rw [hrun, e3, e2, e1]
  · rw [hrun, e3c]
  · intro j hj hji
    obtain ⟨_, _, _, p4, p5⟩ := Update_Keyboard_State_spec kbd r1 hr1 hst
    obtain ⟨_, _, _, q4, q5⟩ := Update_Keyboard_State_spec (Update_Keyboard_State kbd r1) r2 hr2 hs1
    obtain ⟨_, _, _, s4, s5⟩ := Update_Keyboard_State_spec
      (Update_Keyboard_State (Update_Keyboard_State kbd r1) r2) r3 hr3 hs2
    constructor
    · rw [hrun, s4 j, if_pos hj, q4 j, if_pos hj, q5 j, if_pos hj,
        p4 j, if_pos hj, p5 j, if_pos hj]
      rfl
    · rw [hrun, s5 j, if_pos hj, q4 j, if_pos hj, q5 j, if_pos hj,
        p4 j, if_pos hj, p5 j, if_pos hj]
      rfl

/-- Witness for `C2_three_cycles_flip`: key 5, raw bitmap 32 = bit 5 for
three cycles from the zeroed startup state. -/
theorem C2_three_cycles_flip_witness :
    (runUpdates keyboardStartState [32, 32, 32]).stable_state.testBit 5 = true ∧
    (runUpdates keyboardStartState [32, 32, 32]).debounce_counter 5 = 0 := by
  have h := C2_three_cycles_flip keyboardStartState 5 32 32 32 (by decide) (by decide)
    (by decide) (by decide) (by decide) (by decide) (by decide) (by decide) (by decide)
  exact ⟨by rw [h.1.2.2.1]; decide, h.1.2.2.2⟩

/-- C3: starting with counter `i` at 0, fewer than 3 consecutive
disagreeing cycles followed by an agreeing cycle never change stable bit
`i` (at no point of the episode), and the agreeing read resets
`debounce_counter[i]` to 0. -/
theorem C3_short_bounce_rejected :
    ∀ (kbd : KeyboardState) (i : Nat) (rs : List Nat) (r : Nat),
    i < 64 → kbd.stable_state < 2 ^ 32 → (∀ x ∈ rs, x < 2 ^ 32) → r < 2 ^ 32 →
    rs.length < 3 →
    kbd.debounce_counter i = 0 →
    (∀ x ∈ rs, x.testBit i = !kbd.stable_state.testBit i) →
    r.testBit i = kbd.stable_state.testBit i →
    (∀ t, (runUpdates kbd ((rs ++ [r]).take t)).stable_state.testBit i =
      kbd.stable_state.testBit i) ∧
    (runUpdates kbd (rs ++ [r])).debounce_counter i = 0 := by
  intro kbd i rs r hi hst hrs hr hlen hc0 hbits hragree
  match rs, hlen with
  | [], _ =>
    obtain ⟨e1, e1c⟩ := update_bit_agree kbd r i hr hst hi hragree
    refine ⟨?_, e1c⟩
    intro t
    match t with
    | 0 => rfl
    | t + 1 =>
      rw [List.take_of_length_le (by simp)]
      exact e1
  | [a], _ =>
    have ha : a < 2 ^ 32 := hrs a (by simp)
    obtain ⟨e1, e1c⟩ := update_bit_opp_lt kbd a i ha hst hi (by omega) (hbits a (by simp))
    have hs1 : (Update_Keyboard_State kbd a).stable_state < 2 ^ 32 :=
      (Update_Keyboard_State_spec kbd a ha hst).1
    obtain ⟨e2, e2c⟩ := update_bit_agree (Update_Keyboard_State kbd a) r i hr hs1 hi
      (by rw [hragree, e1])
    refine ⟨?_, by rw [show runUpdates kbd ([a] ++ [r])
        = Update_Keyboard_State (Update_Keyboard_State kbd a) r from rfl, e2c]⟩
    intro t
    match t with
    | 0 => rfl
    | 1 => exact e1
    | t + 2 =>
      rw [List.take_of_length_le (by simp)]
      show (Update_Keyboard_State (Update_Keyboard_State kbd a) r).stable_state.testBit i = _
      rw [e2, e1]
  | [a, b], _ =>
    have ha : a < 2 ^ 32 := hrs a (by simp)
    have hb : b < 2 ^ 32 := hrs b (by simp)
    obtain ⟨e1, e1c⟩ := update_bit_opp_lt kbd a i ha hst hi (by omega) (hbits a (by simp))
    have hs1 : (Update_Keyboard_State kbd a).stable_state < 2 ^ 32 :=
      (Update_Keyboard_State_spec kbd a ha hst).1
    obtain ⟨e2, e2c⟩ := update_bit_opp_lt (Update_Keyboard_State kbd a) b i hb hs1 hi
      (by rw [e1c, hc0]; omega) (by rw [hbits b (by simp), e1])
    have hs2 : (Update_Keyboard_State (Update_Keyboard_State kbd a) b).stable_state < 2 ^ 32 :=
      (Update_Keyboard_State_spec _ b hb hs1).1
    obtain ⟨e3, e3c⟩ := update_bit_agree
      (Update_Keyboard_State (Update_Keyboard_State kbd a) b) r i hr hs2 hi
      (by rw [hragree, e2, e1])
    refine ⟨?_, by rw [show runUpdates kbd ([a, b] ++ [r]) = Update_Keyboard_State
        (Update_Keyboard_State (Update_Keyboard_State kbd a) b) r from rfl, e3c]⟩
    intro t
    match t with
    | 0 => rfl
    | 1 => exact e1
    | 2 =>
      show (Update_Keyboard_State (Update_Keyboard_State kbd a) b).stable_state.testBit i = _
      rw [e2, e1]
    | t + 3 =>
      rw [List.take_of_length_le (by simp)]
      show (Update_Keyboard_State (Update_Keyboard_State
        (Update_Keyboard_State kbd a) b) r).stable_state.testBit i = _
      rw [e3, e2, e1]

/-- Witness for `C3_short_bounce_rejected`: key 3, two bouncing reads then
an agreeing read, from the zeroed startup state. -/
theorem C3_short_bounce_rejected_witness :
    (∀ t, (runUpdates keyboardStartState (([8, 8] ++ [0]).take t)).stable_state.testBit 3 =
      keyboardStartState.stable_state.testBit 3) ∧
    (runUpdates keyboardStartState ([8, 8] ++ [0])).debounce_counter 3 = 0 :=
  C3_short_bounce_rejected keyboardStartState 3 [8, 8] 0 (by decide) (by decide)
    (by decide) (by decide) (by decide) (by decide) (by decide) (by decide)

lemma runUpdates_invariant : ∀ (raws : List Nat) (kbd : KeyboardState),
    (∀ x ∈ raws, x < 2 ^ 32) → kbd.stable_state < 2 ^ 32 →
    (∀ i, i < 64 → kbd.debounce_counter i ≤ 2) → kbd.current_state = kbd.stable_state →
    (runUpdates kbd raws).stable_state < 2 ^ 32 ∧
    (∀ i, i < 64 → (runUpdates kbd raws).debounce_counter i ≤ 2) ∧
    (runUpdates kbd raws).current_state = (runUpdates kbd raws).stable_state := by
  intro raws
  induction raws with
  | nil => intro kbd _ hst hc hcur; exact ⟨hst, hc, hcur⟩
  | cons r rs ih =>
    intro kbd h hst hc hcur
    have hr : r < 2 ^ 32 := h r (by simp)
    obtain ⟨s1, s2, _, _, s5⟩ := Update_Keyboard_State_spec kbd r hr hst
    refine ih (Update_Keyboard_State kbd r) (fun x hx => h x (by simp [hx])) s1 ?_ s2
    intro i hi
    rw [s5 i, if_pos hi]
    exact debounceKey_cnt_le _ _ _

/-- C10: from the zeroed startup state, after any sequence of
`Update_Keyboard_State` calls every key's debounce counter is at most 2
(it never stays at or above the threshold 3) and `current_state` equals
`stable_state`. -/
theorem C10_counter_invariant :
    ∀ raws : List Nat, (∀ x ∈ raws, x < 2 ^ 32) →
    (∀ i, i < 64 → (runUpdates keyboardStartState raws).debounce_counter i ≤ 2) ∧
    (runUpdates keyboardStartState raws).current_state =
      (runUpdates keyboardStartState raws).stable_state := by
  intro raws h
  obtain ⟨_, h2, h3⟩ := runUpdates_invariant raws keyboardStartState h (by decide)
    (fun i _ => by simp [keyboardStartState]) rfl
  exact ⟨h2, h3⟩

/-- Witness for `C10_counter_invariant` on a concrete raw-scan sequence. -/
theorem C10_counter_invariant_witness :
    (∀ i, i < 64 → (runUpdates keyboardStartState [7, 7, 7, 0]).debounce_counter i ≤ 2) ∧
    (runUpdates keyboardStartState [7, 7, 7, 0]).current_state =
      (runUpdates keyboardStartState [7, 7, 7, 0]).stable_state :=
  C10_counter_invariant [7, 7, 7, 0] (by decide)

lemma filterMap_if {α β : Type} (l : List α) (p : α → Bool) (f : α → β) :
    l.filterMap (fun a => if p a then some (f a) else none) = (l.filter p).map f := by
  induction l with
  | nil => rfl
  | cons a l ih => by_cases h : p a <;> simp [h, ih]

lemma send_note_eval : ∀ i, i < 64 →
    Send_MIDI_Note i true = [MIDI_NOTE_ON ||| (1 - 1), midi_notes.getD i 0, 100] ∧
    Send_MIDI_Note i false = [MIDI_NOTE_OFF ||| (1 - 1), midi_notes.getD i 0, 0] := by
  decide

/-- C1: in one scan-debounce-encode cycle, the change set is the XOR of
the new stable bitmap with the stable bitmap snapshotted at cycle start;
the emitted messages are exactly one per changed key index `i` (0..63), in
ascending index order — Note On `0x90|(1-1)` if the new stable bit is 1,
Note Off `0x80|(1-1)` if it is 0 — and unchanged keys emit nothing. -/
theorem C1_cycle_emits_changes :
    ∀ (kbd : KeyboardState) (raw : Nat),
    ((Update_Keyboard_State kbd raw).current_state ^^^
        (Update_Keyboard_State kbd raw).previous_state) =
      ((Update_Keyboard_State kbd raw).stable_state ^^^ kbd.stable_state) ∧
    Process_Key_Changes (Update_Keyboard_State kbd raw) =
      ((List.range 64).filter (fun i =>
          ((Update_Keyboard_State kbd raw).stable_state ^^^ kbd.stable_state).testBit i)).map
        (fun i =>
          if (Update_Keyboard_State kbd raw).stable_state.testBit i then
            [MIDI_NOTE_ON ||| (1 - 1), midi_notes.getD i 0, 100]
          else
            [MIDI_NOTE_OFF ||| (1 - 1), midi_notes.getD i 0, 0]) ∧
    ((List.range 64).filter (fun i =>
        ((Update_Keyboard_State kbd raw).stable_state ^^^ kbd.stable_state).testBit i)).Pairwise
      (· < ·) := by
  intro kbd raw
  have hcur : (Update_Keyboard_State kbd raw).current_state
      = (Update_Keyboard_State kbd raw).stable_state := rfl
  have hprev : (Update_Keyboard_State kbd raw).previous_state = kbd.stable_state := rfl
  refine ⟨by rw [hcur, hprev], ?_, List.Pairwise.filter _ (List.pairwise_lt_range 64)⟩
  simp only [Process_Key_Changes, MAX_MATRIX_KEYS, hcur, hprev]
  by_cases h0 : (Update_Keyboard_State kbd raw).stable_state ^^^ kbd.stable_state = 0
  · rw [if_pos h0, h0]
    simp [Nat.zero_testBit, List.filter_eq_nil_iff]
  · rw [if_neg h0,
      filterMap_if (List.range 64)
        (fun i => ((Update_Keyboard_State kbd raw).stable_state ^^^ kbd.stable_state).testBit i)
        (fun i => Send_MIDI_Note i ((Update_Keyboard_State kbd raw).stable_state.testBit i))]
    apply List.map_congr_left
    intro a ha
    have ha64 : a < 64 := List.mem_range.mp (List.mem_filter.mp ha).1
    obtain ⟨e1, e2⟩ := send_note_eval a ha64
    cases hp : (Update_Keyboard_State kbd raw).stable_state.testBit a with
    | true => rw [if_pos rfl] at *; rw [e1]
    | false => rw [e2]; simp

/-! ## Matrix scan (src/drivers/MatrixKeyboard/stm32g4_matrix_keyboard.c) -/

/-- The inner row-sampling loop of `MATRIX_KEYBOARD_read_all_touchs`: the
eight `MCP23017_getGPIO(chip, PORT_B, pin, &pin_state)` calls made while
column `col` is strobed low, assembled into `port_b_value`.  The expander
is external hardware, so the call is taken at the driver boundary:
`env col pin = (ok, is_high)` is its success flag and reported pin state;
a failed read leaves the bit clear, exactly as in the C code. -/
def portB (env : Nat → Nat → Bool × Bool) (col : Nat) : Nat :=
  (List.range 8).foldl (fun v pin =>
    let r := env col pin
    if r.1 then (if r.2 then v ||| (1 <<< pin) else v) else v) 0

/-- `MATRIX_KEYBOARD_read_all_touchs`: full column sweep; for each column,
each row reading low marks key `row*8+col`, but only indices `< 32` are
recorded in the 32-bit result.  The `MCP23017_setGPIO` column writes only
drive the hardware and do not feed back into the returned bitmap. -/
def MATRIX_KEYBOARD_read_all_touchs (inited : Bool)
    (env : Nat → Nat → Bool × Bool) : Nat :=
  if !inited then 0
  else
    (List.range 8).foldl (fun state col =>
      let port_b_value := portB env col
      (List.range 8).foldl (fun st row =>
        if port_b_value &&& (1 <<< row) = 0 then
          (if row * 8 + col < 32 then st ||| (1 <<< (row * 8 + col)) else st)
        else st) state) 0

/-- An expander response with no I2C failures: every `getGPIO` succeeds and
reports `resp col pin` as the pin level (true = high). -/
def pureGetGPIO (resp : Nat → Nat → Bool) : Nat → Nat → Bool × Bool :=
  fun col pin => (true, resp col pin)

lemma testBit_foldl {h : Nat → Nat → Bool} (step : Nat → Nat → Nat) (j : Nat)
    (H : ∀ s c, (step s c).testBit j = (s.testBit j || h c j)) :
    ∀ (l : List Nat) (v : Nat),
    (l.foldl step v).testBit j = (v.testBit j || l.any (fun c => h c j)) := by
  intro l
  induction l with
  | nil => intro v; simp
  | cons a l ih =>
    intro v
    rw [List.foldl_cons, ih, H, List.any_cons, Bool.or_assoc]

lemma any_range_single {n c : Nat} (hc : c < n) (g : Nat → Bool) :
    ((List.range n).any fun x => g x && decide (x = c)) = g c := by
  induction n with
  | zero => exact absurd hc (Nat.not_lt_zero c)
  | succ n ih =>
    rw [List.range_succ, List.any_append]
    rcases Nat.lt_or_ge c n with h | h
    · rw [ih h]
      have h1 : (List.any [n] fun x => g x && decide (x = c)) = false := by
        simp only [List.any_cons, List.any_nil, Bool.or_false, Bool.and_eq_false_iff]
        right
        simp only [decide_eq_false_iff_not]
        omega
      rw [h1, Bool.or_false]
    · have hcn : c = n := by omega
      subst hcn
      have h1 : ((List.range c).any fun x => g x && decide (x = c)) = false := by
        rw [List.any_eq_false]
        intro x hx
        have hxc : x < c := List.mem_range.mp hx
        simp only [Bool.and_eq_true, decide_eq_true_eq, not_and]
        omega
      rw [h1]
      simp

lemma list_any_congr {α : Type} {l : List α} {p q : α → Bool}
    (h : ∀ a ∈ l, p a = q a) : l.any p = l.any q := by
  induction l with
  | nil => rfl
  | cons a l ih =>
    rw [List.any_cons, List.any_cons, h a (by simp), ih (fun x hx => h x (by simp [hx]))]

lemma any_any_range8 {k : Nat} (hk : k < 64) (f : Nat → Nat → Bool) :
    ((List.range 8).any fun col => (List.range 8).any fun row =>
      f row col && decide (row * 8 + col = k)) = f (k / 8) (k % 8) := by
  have hc : k % 8 < 8 := Nat.mod_lt _ (by norm_num)
  have hr : k / 8 < 8 := Nat.div_lt_of_lt_mul (by omega)
  have hinner : ∀ col ∈ List.range 8,
      ((List.range 8).any fun row => f row col && decide (row * 8 + col = k))
        = ((fun c => f (k / 8) c) col && decide (col = k % 8)) := by
    intro col hcol
    have hcol8 : col < 8 := List.mem_range.mp hcol
    have hpred : ∀ row ∈ List.range 8,
        (f row col && decide (row * 8 + col = k))
          = ((fun r => f r col && decide (col = k % 8)) row && decide (row = k / 8)) := by
      intro row hrow
      have hrow8 : row < 8 := List.mem_range.mp hrow
      have hd : decide (row * 8 + col = k)
          = (decide (row = k / 8) && decide (col = k % 8)) := by
        rw [← Bool.decide_and]
        apply decide_eq_decide.mpr
        omega
      rw [hd, Bool.and_comm (decide (row = k / 8)) (decide (col = k % 8)),
        ← Bool.and_assoc]
    rw [list_any_congr hpred, any_range_single hr]
  rw [list_any_congr hinner, any_range_single hc]

lemma and_two_pow_eq_zero_iff (x i : Nat) : x &&& (1 <<< i) = 0 ↔ x.testBit i = false := by
  rw [Nat.one_shiftLeft]
  constructor
  · intro h
    have h2 := congrArg (fun y => Nat.testBit y i) h
    simp only [Nat.testBit_and, Nat.testBit_two_pow_self, Bool.and_true,
      Nat.zero_testBit] at h2
    exact h2
  · intro h
    apply Nat.eq_of_testBit_eq
    intro j
    rw [Nat.testBit_and, Nat.zero_testBit]
    by_cases hj : j = i
    · subst hj
      rw [h, Bool.false_and]
    · rw [Nat.testBit_two_pow_of_ne (fun he => hj he.symm), Bool.and_false]

/-- The row-analysis step of the scan loop, for a sampled `port_b_value`
`pb` during the strobe of column `col`. -/
def rowStep (pb col st row : Nat) : Nat :=
  if pb &&& (1 <<< row) = 0 then
    (if row * 8 + col < 32 then st ||| (1 <<< (row * 8 + col)) else st)
  else st

/-- One column of the scan: sample port B, then analyse the eight rows. -/
def colStep (env : Nat → Nat → Bool × Bool) (state col : Nat) : Nat :=
  (List.range 8).foldl (rowStep (portB env col) col) state

lemma readAll_eq_foldl (env : Nat → Nat → Bool × Bool) :
    MATRIX_KEYBOARD_read_all_touchs true env = (List.range 8).foldl (colStep env) 0 := rfl

/-- Whether the scan records key `row*8+col` as a contribution to bit `j`. -/
def hitBit (pb col row j : Nat) : Bool :=
  (decide (pb &&& (1 <<< row) = 0) && decide (row * 8 + col < 32)) && decide (row * 8 + col = j)

lemma rowStep_testBit (pb col j : Nat) :
    ∀ st row, (rowStep pb col st row).testBit j = (st.testBit j || hitBit pb col row j) := by
  intro st row
  unfold rowStep hitBit
  by_cases c1 : pb &&& (1 <<< row) = 0
  · by_cases c2 : row * 8 + col < 32
    · have c1' : pb &&& 2 ^ row = 0 := by rwa [Nat.one_shiftLeft] at c1
      rw [if_pos c1, if_pos c2]
      simp [c1', c2, Nat.testBit_or, Nat.one_shiftLeft, Nat.testBit_two_pow]
    · rw [if_pos c1, if_neg c2]
      simp [c2]
  · rw [if_neg c1]
    simp [c1]

lemma colStep_testBit (env : Nat → Nat → Bool × Bool) (j : Nat) :
    ∀ state col, (colStep env state col).testBit j =
      (state.testBit j || (List.range 8).any fun row => hitBit (portB env col) col row j) := by
  intro state col
  exact @testBit_foldl (fun row j => hitBit (portB env col) col row j)
    (rowStep (portB env col) col) j (rowStep_testBit (portB env col) col j)
    (List.range 8) state

lemma readAll_testBit (env : Nat → Nat → Bool × Bool) (j : Nat) :
    (MATRIX_KEYBOARD_read_all_touchs true env).testBit j =
      ((List.range 8).any fun col =>
        (List.range 8).any fun row => hitBit (portB env col) col row j) := by
  rw [readAll_eq_foldl,
    @testBit_foldl (fun col j => (List.range 8).any fun row => hitBit (portB env col) col row j)
      (colStep env) j (colStep_testBit env j) (List.range 8) 0,
    Nat.zero_testBit, Bool.false_or]

/-- The accumulation step of the port-B sampling loop of the scan. -/
def pinStep (env : Nat → Nat → Bool × Bool) (col v pin : Nat) : Nat :=
  let r := env col pin
  if r.1 then (if r.2 then v ||| (1 <<< pin) else v) else v

lemma portB_eq_foldl (env : Nat → Nat → Bool × Bool) (col : Nat) :
    portB env col = (List.range 8).foldl (pinStep env col) 0 := rfl

lemma pinStep_testBit (resp : Nat → Nat → Bool) (col p : Nat) :
    ∀ v pin, (pinStep ( pureGetGPIO resp) col v pin).testBit p
      = (v.testBit p || (resp col pin && decide (pin = p))) := by
  intro v pin
  unfold pinStep pureGetGPIO
  by_cases c : resp col pin
  · simp only [c, if_true, if_pos rfl]
    simp [Nat.testBit_or, Nat.one_shiftLeft, Nat.testBit_two_pow]
  · simp [c]

lemma portB_pure (resp : Nat → Nat → Bool) (col p : Nat) (hp : p < 8) :
    (portB ( pureGetGPIO resp) col).testBit p = resp col p := by
  rw [portB_eq_foldl,
    @testBit_foldl (fun pin p => resp col pin && decide (pin = p))
      (pinStep ( pureGetGPIO resp) col) p (pinStep_testBit resp col p) (List.range 8) 0,
    Nat.zero_testBit, Bool.false_or, any_range_single hp]

/-- C5: with all expander reads succeeding and `resp col pin` the level
read on row `pin` while column `col` is strobed, the returned 32-bit
bitmap has bit `r*8+c` (for `r*8+c < 32`) set exactly when row `r` read
low during column `c`'s strobe; bits 32..63 are never set (for any
responses, failures included); and a press of only row 2, column 3 yields
exactly bit 19. -/
theorem C5_read_all_touchs :
    ∀ resp : Nat → Nat → Bool,
    (∀ k, k < 32 →
      (MATRIX_KEYBOARD_read_all_touchs true ( pureGetGPIO resp)).testBit k
        = !resp (k % 8) (k / 8)) ∧
    (∀ env : Nat → Nat → Bool × Bool, ∀ k, 32 ≤ k →
      (MATRIX_KEYBOARD_read_all_touchs true env).testBit k = false) ∧
    MATRIX_KEYBOARD_read_all_touchs true
      ( pureGetGPIO (fun col pin => !(decide (pin = 2) && decide (col = 3)))) = 1 <<< 19 := by
  intro resp
  refine ⟨?_, ?_, by decide⟩
  · intro k hk
    have hk64 : k < 64 := by omega
    have hr : k / 8 < 8 := Nat.div_lt_of_lt_mul (by omega)
    have hidx : k / 8 * 8 + k % 8 = k := by omega
    rw [readAll_testBit]
    simp only [hitBit]
    rw [any_any_range8 hk64 (fun row col =>
      decide ((portB ( pureGetGPIO resp) col) &&& (1 <<< row) = 0)
        && decide (row * 8 + col < 32))]
    have hiff := and_two_pow_eq_zero_iff (portB ( pureGetGPIO resp) (k % 8)) (k / 8)
    rw [portB_pure resp (k % 8) (k / 8) hr] at hiff
    rw [hidx]
    cases hres : resp (k % 8) (k / 8)
    · rw [hres] at hiff
      simp [hiff, hk]
    · rw [hres] at hiff
      simp [hiff, hk]
  · intro env k hk
    rw [readAll_testBit]
    simp only [List.any_eq_false]
    intro col hcol
    rw [Bool.not_eq_true, List.any_eq_false]
    intro row hrow
    simp only [hitBit, Bool.and_eq_true, decide_eq_true_eq, not_and]
    rintro ⟨-, hB⟩ hC
    omega

/-- Witness for `C5_read_all_touchs`: the no-press response gives a clear
bit 19, and bit 40 is clear for an all-pressed response. -/
theorem C5_read_all_touchs_witness :
    ((19 : Nat) < 32 ∧
      (MATRIX_KEYBOARD_read_all_touchs true ( pureGetGPIO (fun _ _ => true))).testBit 19
        = false) ∧
    ((32 : Nat) ≤ 40 ∧
      (MATRIX_KEYBOARD_read_all_touchs true ( pureGetGPIO (fun _ _ => false))).testBit 40
        = false) := by
  constructor
  · refine ⟨by decide, ?_⟩
    have h := (C5_read_all_touchs (fun _ _ => true)).1 19 (by decide)
    simpa using h
  · refine ⟨by decide, ?_⟩
    exact (C5_read_all_touchs (fun _ _ => true)).2.1 ( pureGetGPIO (fun _ _ => false)) 40
      (by decide)

/-! ## MCP23017 driver (src/drivers/MCP23017/stm32g4_mcp23017.c)

The I2C bus is external hardware, modelled as an oracle `I2CEnv` answering
each transaction as a function of the whole transaction history (so two
reads of the same register may answer differently).  Driver state is the
chip-slot table; every operation returns its success flag, the new slot
table, the extended transaction log and (for getters) the out-parameter.
`MCP23017_NB_IC` comes from the missing config header, so the capacity is
the explicit parameter `nbIC`.  The C sentinel `MCP23017_ID_ERROR` is
`none`.  Bytes read from the bus carry an explicit `&&& 0xFF` for the C
`uint8_t` out-parameter. -/

/-- One I2C transaction issued by the driver (`BSP_I2C_Init`,
`BSP_I2C_Read`, `BSP_I2C_Write`). -/
inductive I2COp where
  | init (bus : Nat)
  | read (bus addr reg : Nat)
  | write (bus addr reg val : Nat)
deriving DecidableEq

/-- Response of the bus to one transaction: success flag and (for reads)
the byte read. -/
structure I2CResult where
  ok : Bool
  value : Nat

/-- The external bus oracle: the argument is the transaction history up to
and including the transaction being answered. -/
def I2CEnv := List I2COp → I2CResult

/-- Register addresses (BANK = 0 layout) from stm32g4_mcp23017.c. -/
def MPC23017_REGISTER_IODIR_A : Nat := 0x00

/-- `MPC23017_REGISTER_IODIR_B`. -/
def MPC23017_REGISTER_IODIR_B : Nat := 0x01

/-- `MPC23017_REGISTER_GPINTEN_A`. -/
def MPC23017_REGISTER_GPINTEN_A : Nat := 0x04

/-- `MPC23017_REGISTER_GPINTEN_B`. -/
def MPC23017_REGISTER_GPINTEN_B : Nat := 0x05

/-- `MPC23017_REGISTER_IOCON_A`. -/
def MPC23017_REGISTER_IOCON_A : Nat := 0x0A

/-- `MPC23017_REGISTER_IOCON_B`. -/
def MPC23017_REGISTER_IOCON_B : Nat := 0x0B

/-- `MPC23017_REGISTER_GPPU_A`. -/
def MPC23017_REGISTER_GPPU_A : Nat := 0x0C

/-- `MPC23017_REGISTER_GPPU_B`. -/
def MPC23017_REGISTER_GPPU_B : Nat := 0x0D

/-- `MPC23017_REGISTER_GPIO_A`. -/
def MPC23017_REGISTER_GPIO_A : Nat := 0x12

/-- `MPC23017_REGISTER_GPIO_B`. -/
def MPC23017_REGISTER_GPIO_B : Nat := 0x13

/-- `MPC23017_REGISTER_OLAT_A`. -/
def MPC23017_REGISTER_OLAT_A : Nat := 0x14

/-- `MPC23017_REGISTER_OLAT_B`. -/
def MPC23017_REGISTER_OLAT_B : Nat := 0x15

/-- The IOCON byte built in `MCP23017_initIc`: every bit-field is set to
its zero variant (bank same, mirror off, sequential enabled, slew enabled,
address pin off, active drive, polarity low), on `rawData = 0x00`. -/
def MCP23017_IOCON_BYTE : Nat := 0x00

/-- The port selector `MCP23017_port_e`. -/
inductive MCP23017_port_e where
  | A
  | B
deriving DecidableEq

/-- `MCP23017_direction_e`. -/
inductive MCP23017_direction_e where
  | OUTPUT
  | INPUT
deriving DecidableEq

/-- `MCP23017_pinState_e`. -/
inductive MCP23017_pinState_e where
  | LOW
  | HIGH
deriving DecidableEq

/-- `MCP23017_pullUpState_e`. -/
inductive MCP23017_pullUpState_e where
  | LOW
  | HIGH
deriving DecidableEq

/-- One slot of the driver's chip table (`MCP23017_ic_t`). -/
structure MCPSlot where
  used : Bool
  address : Nat
  i2cx : Nat
  error_count : Nat
deriving DecidableEq

/-- Result of one driver operation: success flag, new slot table, extended
transaction log, and the out-parameter for getters. -/
structure MCPOpResult (α : Type) where
  ok : Bool
  slots : Nat → MCPSlot
  log : List I2COp
  out : Option α

/-- `MCP23017_init`: marks every slot free with a zero error counter. -/
def MCP23017_init (nbIC : Nat) (slots : Nat → MCPSlot) : Nat → MCPSlot :=
  fun i => if i < nbIC then { slots i with used := false, error_count := 0 } else slots i

/-- `MCP23017_checkId`. -/
def MCP23017_checkId (nbIC : Nat) (slots : Nat → MCPSlot) (id : Nat) : Bool :=
  if id ≥ nbIC then false
  else if (slots id).used = false then false
  else true

/-- The `error_count++` on a chip's `uint8_t` counter. -/
def incErr (slots : Nat → MCPSlot) (id : Nat) : Nat → MCPSlot :=
  Function.update slots id
    { slots id with error_count := ((slots id).error_count + 1) % 256 }

/-- The fixed transaction sequence of `MCP23017_initIc` at bus address
`addr`: bus init, communication-test read, the nine configuration writes,
then the three verification reads, in source order. -/
def initIcOps (bus addr : Nat) : List I2COp :=
  [I2COp.init bus,
   I2COp.read bus addr MPC23017_REGISTER_IODIR_A,
   I2COp.write bus addr MPC23017_REGISTER_IODIR_A 0x00,
   I2COp.write bus addr MPC23017_REGISTER_IODIR_B 0xFF,
   I2COp.write bus addr MPC23017_REGISTER_GPPU_B 0xFF,
   I2COp.write bus addr MPC23017_REGISTER_GPPU_A 0x00,
   I2COp.write bus addr MPC23017_REGISTER_OLAT_A 0xFF,
   I2COp.write bus addr MPC23017_REGISTER_IOCON_A MCP23017_IOCON_BYTE,
   I2COp.write bus addr MPC23017_REGISTER_IOCON_B MCP23017_IOCON_BYTE,
   I2COp.write bus addr MPC23017_REGISTER_GPINTEN_A 0x00,
   I2COp.write bus addr MPC23017_REGISTER_GPINTEN_B 0x00,
   I2COp.read bus addr MPC23017_REGISTER_IODIR_A,
   I2COp.read bus addr MPC23017_REGISTER_IODIR_B,
   I2COp.read bus addr MPC23017_REGISTER_GPPU_B]

/-- `MCP23017_initIc`: claims the slot (used, address
`(0x20<<1)|((address&0x07)<<1)`, zero error counter), then runs the fixed
transaction sequence; the first failing step frees the slot and aborts;
the final read-back must give IODIR_A=0x00, IODIR_B=0xFF, GPPU_B=0xFF.
Each step consults the bus oracle on the transaction history up to and
including that step, written out explicitly. -/
def MCP23017_initIc (nbIC : Nat) (env : I2CEnv) (slots : Nat → MCPSlot) (log : List I2COp)
    (id bus address : Nat) : Bool × (Nat → MCPSlot) × List I2COp :=
  if id ≥ nbIC then (false, slots, log)
  else
    let addr := (0x20 <<< 1) ||| ((address &&& 0x07) <<< 1)
    let slots1 := Function.update slots id
      { used := true, address := addr, i2cx := bus, error_count := 0 }
    let freed := Function.update slots id
      { used := false, address := addr, i2cx := bus, error_count := 0 }
    if (env (log ++
        [I2COp.init bus])).ok = false then
      (false, freed, log ++
        [I2COp.init bus])
    else
    if (env (log ++
        [I2COp.init bus,
          I2COp.read bus addr MPC23017_REGISTER_IODIR_A])).ok = false then
      (false, freed, log ++
        [I2COp.init bus,
          I2COp.read bus addr MPC23017_REGISTER_IODIR_A])
    else
    if (env (log ++
        [I2COp.init bus,
          I2COp.read bus addr MPC23017_REGISTER_IODIR_A,
          I2COp.write bus addr MPC23017_REGISTER_IODIR_A 0x00])).ok = false then
      (false, freed, log ++
        [I2COp.init bus,
          I2COp.read bus addr MPC23017_REGISTER_IODIR_A,
          I2COp.write bus addr MPC23017_REGISTER_IODIR_A 0x00])
    else
    if (env (log ++
        [I2COp.init bus,
          I2COp.read bus addr MPC23017_REGISTER_IODIR_A,
          I2COp.write bus addr MPC23017_REGISTER_IODIR_A 0x00,
          I2COp.write bus addr MPC23017_REGISTER_IODIR_B 0xFF])).ok = false then
      (false, freed, log ++
        [I2COp.init bus,
          I2COp.read bus addr MPC23017_REGISTER_IODIR_A,
          I2COp.write bus addr MPC23017_REGISTER_IODIR_A 0x00,
          I2COp.write bus addr MPC23017_REGISTER_IODIR_B 0xFF])
    else
    if (env (log ++
        [I2COp.init bus,
          I2COp.read bus addr MPC23017_REGISTER_IODIR_A,
          I2COp.write bus addr MPC23017_REGISTER_IODIR_A 0x00,
          I2COp.write bus addr MPC23017_REGISTER_IODIR_B 0xFF,
          I2COp.write bus addr MPC23017_REGISTER_GPPU_B 0xFF])).ok = false then
      (false, freed, log ++
        [I2COp.init bus,
          I2COp.read bus addr MPC23017_REGISTER_IODIR_A,
          I2COp.write bus addr MPC23017_REGISTER_IODIR_A 0x00,
          I2COp.write bus addr MPC23017_REGISTER_IODIR_B 0xFF,
          I2COp.write bus addr MPC23017_REGISTER_GPPU_B 0xFF])
    else
    if (env (log ++
        [I2COp.init bus,
          I2COp.read bus addr MPC23017_REGISTER_IODIR_A,
          I2COp.write bus addr MPC23017_REGISTER_IODIR_A 0x00,
          I2COp.write bus addr MPC23017_REGISTER_IODIR_B 0xFF,
          I2COp.write bus addr MPC23017_REGISTER_GPPU_B 0xFF,
          I2COp.write bus addr MPC23017_REGISTER_GPPU_A 0x00])).ok = false then
      (false, freed, log ++
        [I2COp.init bus,
          I2COp.read bus addr MPC23017_REGISTER_IODIR_A,
          I2COp.write bus addr MPC23017_REGISTER_IODIR_A 0x00,
          I2COp.write bus addr MPC23017_REGISTER_IODIR_B 0xFF,
          I2COp.write bus addr MPC23017_REGISTER_GPPU_B 0xFF,
          I2COp.write bus addr MPC23017_REGISTER_GPPU_A 0x00])
    else
    if (env (log ++
        [I2COp.init bus,
          I2COp.read bus addr MPC23017_REGISTER_IODIR_A,
          I2COp.write bus addr MPC23017_REGISTER_IODIR_A 0x00,
          I2COp.write bus addr MPC23017_REGISTER_IODIR_B 0xFF,
          I2COp.write bus addr MPC23017_REGISTER_GPPU_B 0xFF,
          I2COp.write bus addr MPC23017_REGISTER_GPPU_A 0x00,
          I2COp.write bus addr MPC23017_REGISTER_OLAT_A 0xFF])).ok = false then
      (false, freed, log ++
        [I2COp.init bus,
          I2COp.read bus addr MPC23017_REGISTER_IODIR_A,
          I2COp.write bus addr MPC23017_REGISTER_IODIR_A 0x00,
          I2COp.write bus addr MPC23017_REGISTER_IODIR_B 0xFF,
          I2COp.write bus addr MPC23017_REGISTER_GPPU_B 0xFF,
          I2COp.write bus addr MPC23017_REGISTER_GPPU_A 0x00,
          I2COp.write bus addr MPC23017_REGISTER_OLAT_A 0xFF])
    else
    if (env (log ++
        [I2COp.init bus,
          I2COp.read bus addr MPC23017_REGISTER_IODIR_A,
          I2COp.write bus addr MPC23017_REGISTER_IODIR_A 0x00,
          I2COp.write bus addr MPC23017_REGISTER_IODIR_B 0xFF,
          I2COp.write bus addr MPC23017_REGISTER_GPPU_B 0xFF,
          I2COp.write bus addr MPC23017_REGISTER_GPPU_A 0x00,
          I2COp.write bus addr MPC23017_REGISTER_OLAT_A 0xFF,
          I2COp.write bus addr MPC23017_REGISTER_IOCON_A MCP23017_IOCON_BYTE])).ok = false then
      (false, freed, log ++
        [I2COp.init bus,
          I2COp.read bus addr MPC23017_REGISTER_IODIR_A,
          I2COp.write bus addr MPC23017_REGISTER_IODIR_A 0x00,
          I2COp.write bus addr MPC23017_REGISTER_IODIR_B 0xFF,
          I2COp.write bus addr MPC23017_REGISTER_GPPU_B 0xFF,
          I2COp.write bus addr MPC23017_REGISTER_GPPU_A 0x00,
          I2COp.write bus addr MPC23017_REGISTER_OLAT_A 0xFF,
          I2COp.write bus addr MPC23017_REGISTER_IOCON_A MCP23017_IOCON_BYTE])
    else
    if (env (log ++
        [I2COp.init bus,
          I2COp.read bus addr MPC23017_REGISTER_IODIR_A,
          I2COp.write bus addr MPC23017_REGISTER_IODIR_A 0x00,
          I2COp.write bus addr MPC23017_REGISTER_IODIR_B 0xFF,
          I2COp.write bus addr MPC23017_REGISTER_GPPU_B 0xFF,
          I2COp.write bus addr MPC23017_REGISTER_GPPU_A 0x00,
          I2COp.write bus addr MPC23017_REGISTER_OLAT_A 0xFF,
          I2COp.write bus addr MPC23017_REGISTER_IOCON_A MCP23017_IOCON_BYTE,
          I2COp.write bus addr MPC23017_REGISTER_IOCON_B MCP23017_IOCON_BYTE])).ok = false then
      (false, freed, log ++
        [I2COp.init bus,
          I2COp.read bus addr MPC23017_REGISTER_IODIR_A,
          I2COp.write bus addr MPC23017_REGISTER_IODIR_A 0x00,
          I2COp.write bus addr MPC23017_REGISTER_IODIR_B 0xFF,
          I2COp.write bus addr MPC23017_REGISTER_GPPU_B 0xFF,
          I2COp.write bus addr MPC23017_REGISTER_GPPU_A 0x00,
          I2COp.write bus addr MPC23017_REGISTER_OLAT_A 0xFF,
          I2COp.write bus addr MPC23017_REGISTER_IOCON_A MCP23017_IOCON_BYTE,
          I2COp.write bus addr MPC23017_REGISTER_IOCON_B MCP23017_IOCON_BYTE])
    else
    if (env (log ++
        [I2COp.init bus,
          I2COp.read bus addr MPC23017_REGISTER_IODIR_A,
          I2COp.write bus addr MPC23017_REGISTER_IODIR_A 0x00,
          I2COp.write bus addr MPC23017_REGISTER_IODIR_B 0xFF,
          I2COp.write bus addr MPC23017_REGISTER_GPPU_B 0xFF,
          I2COp.write bus addr MPC23017_REGISTER_GPPU_A 0x00,
          I2COp.write bus addr MPC23017_REGISTER_OLAT_A 0xFF,
          I2COp.write bus addr MPC23017_REGISTER_IOCON_A MCP23017_IOCON_BYTE,
          I2COp.write bus addr MPC23017_REGISTER_IOCON_B MCP23017_IOCON_BYTE,
          I2COp.write bus addr MPC23017_REGISTER_GPINTEN_A 0x00])).ok = false then
      (false, freed, log ++
        [I2COp.init bus,
          I2COp.read bus addr MPC23017_REGISTER_IODIR_A,
          I2COp.write bus addr MPC23017_REGISTER_IODIR_A 0x00,
          I2COp.write bus addr MPC23017_REGISTER_IODIR_B 0xFF,
          I2COp.write bus addr MPC23017_REGISTER_GPPU_B 0xFF,
          I2COp.write bus addr MPC23017_REGISTER_GPPU_A 0x00,
          I2COp.write bus addr MPC23017_REGISTER_OLAT_A 0xFF,
          I2COp.write bus addr MPC23017_REGISTER_IOCON_A MCP23017_IOCON_BYTE,
          I2COp.write bus addr MPC23017_REGISTER_IOCON_B MCP23017_IOCON_BYTE,
          I2COp.write bus addr MPC23017_REGISTER_GPINTEN_A 0x00])
    else
    if (env (log ++
        [I2COp.init bus,
          I2COp.read bus addr MPC23017_REGISTER_IODIR_A,
          I2COp.write bus addr MPC23017_REGISTER_IODIR_A 0x00,
          I2COp.write bus addr MPC23017_REGISTER_IODIR_B 0xFF,
          I2COp.write bus addr MPC23017_REGISTER_GPPU_B 0xFF,
          I2COp.write bus addr MPC23017_REGISTER_GPPU_A 0x00,
          I2COp.write bus addr MPC23017_REGISTER_OLAT_A 0xFF,
          I2COp.write bus addr MPC23017_REGISTER_IOCON_A MCP23017_IOCON_BYTE,
          I2COp.write bus addr MPC23017_REGISTER_IOCON_B MCP23017_IOCON_BYTE,
          I2COp.write bus addr MPC23017_REGISTER_GPINTEN_A 0x00,
          I2COp.write bus addr MPC23017_REGISTER_GPINTEN_B 0x00])).ok = false then
      (false, freed, log ++
        [I2COp.init bus,
          I2COp.read bus addr MPC23017_REGISTER_IODIR_A,
          I2COp.write bus addr MPC23017_REGISTER_IODIR_A 0x00,
          I2COp.write bus addr MPC23017_REGISTER_IODIR_B 0xFF,
          I2COp.write bus addr MPC23017_REGISTER_GPPU_B 0xFF,
          I2COp.write bus addr MPC23017_REGISTER_GPPU_A 0x00,
          I2COp.write bus addr MPC23017_REGISTER_OLAT_A 0xFF,
          I2COp.write bus addr MPC23017_REGISTER_IOCON_A MCP23017_IOCON_BYTE,
          I2COp.write bus addr MPC23017_REGISTER_IOCON_B MCP23017_IOCON_BYTE,
          I2COp.write bus addr MPC23017_REGISTER_GPINTEN_A 0x00,
          I2COp.write bus addr MPC23017_REGISTER_GPINTEN_B 0x00])
    else
    if (env (log ++
        [I2COp.init bus,
          I2COp.read bus addr MPC23017_REGISTER_IODIR_A,
          I2COp.write bus addr MPC23017_REGISTER_IODIR_A 0x00,
          I2COp.write bus addr MPC23017_REGISTER_IODIR_B 0xFF,
          I2COp.write bus addr MPC23017_REGISTER_GPPU_B 0xFF,
          I2COp.write bus addr MPC23017_REGISTER_GPPU_A 0x00,
          I2COp.write bus addr MPC23017_REGISTER_OLAT_A 0xFF,
          I2COp.write bus addr MPC23017_REGISTER_IOCON_A MCP23017_IOCON_BYTE,
          I2COp.write bus addr MPC23017_REGISTER_IOCON_B MCP23017_IOCON_BYTE,
          I2COp.write bus addr MPC23017_REGISTER_GPINTEN_A 0x00,
          I2COp.write bus addr MPC23017_REGISTER_GPINTEN_B 0x00,
          I2COp.read bus addr MPC23017_REGISTER_IODIR_A])).ok = false then
      (false, freed, log ++
        [I2COp.init bus,
          I2COp.read bus addr MPC23017_REGISTER_IODIR_A,
          I2COp.write bus addr MPC23017_REGISTER_IODIR_A 0x00,
          I2COp.write bus addr MPC23017_REGISTER_IODIR_B 0xFF,
          I2COp.write bus addr MPC23017_REGISTER_GPPU_B 0xFF,
          I2COp.write bus addr MPC23017_REGISTER_GPPU_A 0x00,
          I2COp.write bus addr MPC23017_REGISTER_OLAT_A 0xFF,
          I2COp.write bus addr MPC23017_REGISTER_IOCON_A MCP23017_IOCON_BYTE,
          I2COp.write bus addr MPC23017_REGISTER_IOCON_B MCP23017_IOCON_BYTE,
          I2COp.write bus addr MPC23017_REGISTER_GPINTEN_A 0x00,
          I2COp.write bus addr MPC23017_REGISTER_GPINTEN_B 0x00,
          I2COp.read bus addr MPC23017_REGISTER_IODIR_A])
    else
    if (env (log ++
        [I2COp.init bus,
          I2COp.read bus addr MPC23017_REGISTER_IODIR_A,
          I2COp.write bus addr MPC23017_REGISTER_IODIR_A 0x00,
          I2COp.write bus addr MPC23017_REGISTER_IODIR_B 0xFF,
          I2COp.write bus addr MPC23017_REGISTER_GPPU_B 0xFF,
          I2COp.write bus addr MPC23017_REGISTER_GPPU_A 0x00,
          I2COp.write bus addr MPC23017_REGISTER_OLAT_A 0xFF,
          I2COp.write bus addr MPC23017_REGISTER_IOCON_A MCP23017_IOCON_BYTE,
          I2COp.write bus addr MPC23017_REGISTER_IOCON_B MCP23017_IOCON_BYTE,
          I2COp.write bus addr MPC23017_REGISTER_GPINTEN_A 0x00,
          I2COp.write bus addr MPC23017_REGISTER_GPINTEN_B 0x00,
          I2COp.read bus addr MPC23017_REGISTER_IODIR_A,
          I2COp.read bus addr MPC23017_REGISTER_IODIR_B])).ok = false then
      (false, freed, log ++
        [I2COp.init bus,
          I2COp.read bus addr MPC23017_REGISTER_IODIR_A,
          I2COp.write bus addr MPC23017_REGISTER_IODIR_A 0x00,
          I2COp.write bus addr MPC23017_REGISTER_IODIR_B 0xFF,
          I2COp.write bus addr MPC23017_REGISTER_GPPU_B 0xFF,
          I2COp.write bus addr MPC23017_REGISTER_GPPU_A 0x00,
          I2COp.write bus addr MPC23017_REGISTER_OLAT_A 0xFF,
          I2COp.write bus addr MPC23017_REGISTER_IOCON_A MCP23017_IOCON_BYTE,
          I2COp.write bus addr MPC23017_REGISTER_IOCON_B MCP23017_IOCON_BYTE,
          I2COp.write bus addr MPC23017_REGISTER_GPINTEN_A 0x00,
          I2COp.write bus addr MPC23017_REGISTER_GPINTEN_B 0x00,
          I2COp.read bus addr MPC23017_REGISTER_IODIR_A,
          I2COp.read bus addr MPC23017_REGISTER_IODIR_B])
    else
    if (env (log ++
        [I2COp.init bus,
          I2COp.read bus addr MPC23017_REGISTER_IODIR_A,
          I2COp.write bus addr MPC23017_REGISTER_IODIR_A 0x00,
          I2COp.write bus addr MPC23017_REGISTER_IODIR_B 0xFF,
          I2COp.write bus addr MPC23017_REGISTER_GPPU_B 0xFF,
          I2COp.write bus addr MPC23017_REGISTER_GPPU_A 0x00,
          I2COp.write bus addr MPC23017_REGISTER_OLAT_A 0xFF,
          I2COp.write bus addr MPC23017_REGISTER_IOCON_A MCP23017_IOCON_BYTE,
          I2COp.write bus addr MPC23017_REGISTER_IOCON_B MCP23017_IOCON_BYTE,
          I2COp.write bus addr MPC23017_REGISTER_GPINTEN_A 0x00,
          I2COp.write bus addr MPC23017_REGISTER_GPINTEN_B 0x00,
          I2COp.read bus addr MPC23017_REGISTER_IODIR_A,
          I2COp.read bus addr MPC23017_REGISTER_IODIR_B,
          I2COp.read bus addr MPC23017_REGISTER_GPPU_B])).ok = false then
      (false, freed, log ++
        [I2COp.init bus,
          I2COp.read bus addr MPC23017_REGISTER_IODIR_A,
          I2COp.write bus addr MPC23017_REGISTER_IODIR_A 0x00,
          I2COp.write bus addr MPC23017_REGISTER_IODIR_B 0xFF,
          I2COp.write bus addr MPC23017_REGISTER_GPPU_B 0xFF,
          I2COp.write bus addr MPC23017_REGISTER_GPPU_A 0x00,
          I2COp.write bus addr MPC23017_REGISTER_OLAT_A 0xFF,
          I2COp.write bus addr MPC23017_REGISTER_IOCON_A MCP23017_IOCON_BYTE,
          I2COp.write bus addr MPC23017_REGISTER_IOCON_B MCP23017_IOCON_BYTE,
          I2COp.write bus addr MPC23017_REGISTER_GPINTEN_A 0x00,
          I2COp.write bus addr MPC23017_REGISTER_GPINTEN_B 0x00,
          I2COp.read bus addr MPC23017_REGISTER_IODIR_A,
          I2COp.read bus addr MPC23017_REGISTER_IODIR_B,
          I2COp.read bus addr MPC23017_REGISTER_GPPU_B])
    else
    if (env (log ++
        [I2COp.init bus,
          I2COp.read bus addr MPC23017_REGISTER_IODIR_A,
          I2COp.write bus addr MPC23017_REGISTER_IODIR_A 0x00,
          I2COp.write bus addr MPC23017_REGISTER_IODIR_B 0xFF,
          I2COp.write bus addr MPC23017_REGISTER_GPPU_B 0xFF,
          I2COp.write bus addr MPC23017_REGISTER_GPPU_A 0x00,
          I2COp.write bus addr MPC23017_REGISTER_OLAT_A 0xFF,
          I2COp.write bus addr MPC23017_REGISTER_IOCON_A MCP23017_IOCON_BYTE,
          I2COp.write bus addr MPC23017_REGISTER_IOCON_B MCP23017_IOCON_BYTE,
          I2COp.write bus addr MPC23017_REGISTER_GPINTEN_A 0x00,
          I2COp.write bus addr MPC23017_REGISTER_GPINTEN_B 0x00,
          I2COp.read bus addr MPC23017_REGISTER_IODIR_A])).value &&& 0xFF ≠ 0x00 ∨
        (env (log ++
        [I2COp.init bus,
          I2COp.read bus addr MPC23017_REGISTER_IODIR_A,
          I2COp.write bus addr MPC23017_REGISTER_IODIR_A 0x00,
          I2COp.write bus addr MPC23017_REGISTER_IODIR_B 0xFF,
          I2COp.write bus addr MPC23017_REGISTER_GPPU_B 0xFF,
          I2COp.write bus addr MPC23017_REGISTER_GPPU_A 0x00,
          I2COp.write bus addr MPC23017_REGISTER_OLAT_A 0xFF,
          I2COp.write bus addr MPC23017_REGISTER_IOCON_A MCP23017_IOCON_BYTE,
          I2COp.write bus addr MPC23017_REGISTER_IOCON_B MCP23017_IOCON_BYTE,
          I2COp.write bus addr MPC23017_REGISTER_GPINTEN_A 0x00,
          I2COp.write bus addr MPC23017_REGISTER_GPINTEN_B 0x00,
          I2COp.read bus addr MPC23017_REGISTER_IODIR_A,
          I2COp.read bus addr MPC23017_REGISTER_IODIR_B])).value &&& 0xFF ≠ 0xFF ∨
        (env (log ++
        [I2COp.init bus,
          I2COp.read bus addr MPC23017_REGISTER_IODIR_A,
          I2COp.write bus addr MPC23017_REGISTER_IODIR_A 0x00,
          I2COp.write bus addr MPC23017_REGISTER_IODIR_B 0xFF,
          I2COp.write bus addr MPC23017_REGISTER_GPPU_B 0xFF,
          I2COp.write bus addr MPC23017_REGISTER_GPPU_A 0x00,
          I2COp.write bus addr MPC23017_REGISTER_OLAT_A 0xFF,
          I2COp.write bus addr MPC23017_REGISTER_IOCON_A MCP23017_IOCON_BYTE,
          I2COp.write bus addr MPC23017_REGISTER_IOCON_B MCP23017_IOCON_BYTE,
          I2COp.write bus addr MPC23017_REGISTER_GPINTEN_A 0x00,
          I2COp.write bus addr MPC23017_REGISTER_GPINTEN_B 0x00,
          I2COp.read bus addr MPC23017_REGISTER_IODIR_A,
          I2COp.read bus addr MPC23017_REGISTER_IODIR_B,
          I2COp.read bus addr MPC23017_REGISTER_GPPU_B])).value &&& 0xFF ≠ 0xFF then
      (false, freed, log ++
        [I2COp.init bus,
          I2COp.read bus addr MPC23017_REGISTER_IODIR_A,
          I2COp.write bus addr MPC23017_REGISTER_IODIR_A 0x00,
          I2COp.write bus addr MPC23017_REGISTER_IODIR_B 0xFF,
          I2COp.write bus addr MPC23017_REGISTER_GPPU_B 0xFF,
          I2COp.write bus addr MPC23017_REGISTER_GPPU_A 0x00,
          I2COp.write bus addr MPC23017_REGISTER_OLAT_A 0xFF,
          I2COp.write bus addr MPC23017_REGISTER_IOCON_A MCP23017_IOCON_BYTE,
          I2COp.write bus addr MPC23017_REGISTER_IOCON_B MCP23017_IOCON_BYTE,
          I2COp.write bus addr MPC23017_REGISTER_GPINTEN_A 0x00,
          I2COp.write bus addr MPC23017_REGISTER_GPINTEN_B 0x00,
          I2COp.read bus addr MPC23017_REGISTER_IODIR_A,
          I2COp.read bus addr MPC23017_REGISTER_IODIR_B,
          I2COp.read bus addr MPC23017_REGISTER_GPPU_B])
    else (true, slots1, log ++
        [I2COp.init bus,
          I2COp.read bus addr MPC23017_REGISTER_IODIR_A,
          I2COp.write bus addr MPC23017_REGISTER_IODIR_A 0x00,
          I2COp.write bus addr MPC23017_REGISTER_IODIR_B 0xFF,
          I2COp.write bus addr MPC23017_REGISTER_GPPU_B 0xFF,
          I2COp.write bus addr MPC23017_REGISTER_GPPU_A 0x00,
          I2COp.write bus addr MPC23017_REGISTER_OLAT_A 0xFF,
          I2COp.write bus addr MPC23017_REGISTER_IOCON_A MCP23017_IOCON_BYTE,
          I2COp.write bus addr MPC23017_REGISTER_IOCON_B MCP23017_IOCON_BYTE,
          I2COp.write bus addr MPC23017_REGISTER_GPINTEN_A 0x00,
          I2COp.write bus addr MPC23017_REGISTER_GPINTEN_B 0x00,
          I2COp.read bus addr MPC23017_REGISTER_IODIR_A,
          I2COp.read bus addr MPC23017_REGISTER_IODIR_B,
          I2COp.read bus addr MPC23017_REGISTER_GPPU_B])

/-- The slot-scan loop of `MCP23017_add`: first free index among
`i, i+1, ..., i+fuel-1`. -/
def findFreeFrom (slots : Nat → MCPSlot) : Nat → Nat → Option Nat
  | _, 0 => none
  | i, fuel + 1 => if (slots i).used = false then some i else findFreeFrom slots (i + 1) fuel

/-- `MCP23017_add`: rejects a hardware address above 0x07, finds the first
free slot, and runs `MCP23017_initIc` on it; `none` is the C
`MCP23017_ID_ERROR` sentinel. -/
def MCP23017_add (nbIC : Nat) (env : I2CEnv) (slots : Nat → MCPSlot) (log : List I2COp)
    (bus address : Nat) : Option Nat × (Nat → MCPSlot) × List I2COp :=
  if address > 0x07 then (none, slots, log)
  else
    match findFreeFrom slots 0 nbIC with
    | none => (none, slots, log)
    | some i =>
      let r := MCP23017_initIc nbIC env slots log i bus address
      if r.1 then (some i, r.2.1, r.2.2) else (none, r.2.1, r.2.2)

/-- `MCP23017_setIO`: read-modify-write of the IODIR register;
`value & (~pin)` on a `uint8_t` is the conjunction with the 8-bit
complement mask. -/
def MCP23017_setIO (nbIC : Nat) (env : I2CEnv) (slots : Nat → MCPSlot) (log : List I2COp)
    (id : Nat) (port : MCP23017_port_e) (pin : Nat) (direction : MCP23017_direction_e) :
    MCPOpResult Unit :=
  if MCP23017_checkId nbIC slots id = false then ⟨false, slots, log, none⟩
  else
    let reg := if port = MCP23017_port_e.A then MPC23017_REGISTER_IODIR_A
      else MPC23017_REGISTER_IODIR_B
    let log1 := log ++ [I2COp.read (slots id).i2cx (slots id).address reg]
    if (env log1).ok = false then ⟨false, incErr slots id, log1, none⟩
    else
      let value := (env log1).value &&& 0xFF
      let value2 := if direction = MCP23017_direction_e.OUTPUT
        then value &&& (0xFF ^^^ (pin &&& 0xFF))
        else (value ||| pin) &&& 0xFF
      let log2 := log1 ++ [I2COp.write (slots id).i2cx (slots id).address reg value2]
      if (env log2).ok = false then ⟨false, incErr slots id, log2, none⟩
      else ⟨true, slots, log2, none⟩

/-- `MCP23017_getIO`: read of the IODIR register; bit set means INPUT. -/
def MCP23017_getIO (nbIC : Nat) (env : I2CEnv) (slots : Nat → MCPSlot) (log : List I2COp)
    (id : Nat) (port : MCP23017_port_e) (pin : Nat) : MCPOpResult MCP23017_direction_e :=
  if MCP23017_checkId nbIC slots id = false then ⟨false, slots, log, none⟩
  else
    let reg := if port = MCP23017_port_e.A then MPC23017_REGISTER_IODIR_A
      else MPC23017_REGISTER_IODIR_B
    let log1 := log ++ [I2COp.read (slots id).i2cx (slots id).address reg]
    if (env log1).ok = false then ⟨false, incErr slots id, log1, none⟩
    else
      let value := (env log1).value &&& 0xFF
      ⟨true, slots, log1,
        some (if value &&& pin ≠ 0 then MCP23017_direction_e.INPUT
          else MCP23017_direction_e.OUTPUT)⟩

/-- `MCP23017_setGPIO`: read-modify-write of the OLAT register. -/
def MCP23017_setGPIO (nbIC : Nat) (env : I2CEnv) (slots : Nat → MCPSlot) (log : List I2COp)
    (id : Nat) (port : MCP23017_port_e) (pin : Nat) (state : MCP23017_pinState_e) :
    MCPOpResult Unit :=
  if MCP23017_checkId nbIC slots id = false then ⟨false, slots, log, none⟩
  else
    let reg := if port = MCP23017_port_e.A then MPC23017_REGISTER_OLAT_A
      else MPC23017_REGISTER_OLAT_B
    let log1 := log ++ [I2COp.read (slots id).i2cx (slots id).address reg]
    if (env log1).ok = false then ⟨false, incErr slots id, log1, none⟩
    else
      let value := (env log1).value &&& 0xFF
      let value2 := if state = MCP23017_pinState_e.LOW
        then value &&& (0xFF ^^^ (pin &&& 0xFF))
        else (value ||| pin) &&& 0xFF
      let log2 := log1 ++ [I2COp.write (slots id).i2cx (slots id).address reg value2]
      if (env log2).ok = false then ⟨false, incErr slots id, log2, none⟩
      else ⟨true, slots, log2, none⟩

/-- `MCP23017_getGPIO`: read of the GPIO register; bit set means HIGH. -/
def MCP23017_getGPIO (nbIC : Nat) (env : I2CEnv) (slots : Nat → MCPSlot) (log : List I2COp)
    (id : Nat) (port : MCP23017_port_e) (pin : Nat) : MCPOpResult MCP23017_pinState_e :=
  if MCP23017_checkId nbIC slots id = false then ⟨false, slots, log, none⟩
  else
    let reg := if port = MCP23017_port_e.A then MPC23017_REGISTER_GPIO_A
      else MPC23017_REGISTER_GPIO_B
    let log1 := log ++ [I2COp.read (slots id).i2cx (slots id).address reg]
    if (env log1).ok = false then ⟨false, incErr slots id, log1, none⟩
    else
      let value := (env log1).value &&& 0xFF
      ⟨true, slots, log1,
        some (if value &&& pin ≠ 0 then MCP23017_pinState_e.HIGH
          else MCP23017_pinState_e.LOW)⟩

/-- `MCP23017_getGPIO_all_pins`: read of the whole GPIO register. -/
def MCP23017_getGPIO_all_pins (nbIC : Nat) (env : I2CEnv) (slots : Nat → MCPSlot)
    (log : List I2COp) (id : Nat) (port : MCP23017_port_e) : MCPOpResult Nat :=
  if MCP23017_checkId nbIC slots id = false then ⟨false, slots, log, none⟩
  else
    let reg := if port = MCP23017_port_e.A then MPC23017_REGISTER_GPIO_A
      else MPC23017_REGISTER_GPIO_B
    let log1 := log ++ [I2COp.read (slots id).i2cx (slots id).address reg]
    if (env log1).ok = false then ⟨false, incErr slots id, log1, none⟩
    else ⟨true, slots, log1, some ((env log1).value &&& 0xFF)⟩

/-- `MCP23017_setPullUp`: read-modify-write of the GPPU register. -/
def MCP23017_setPullUp (nbIC : Nat) (env : I2CEnv) (slots : Nat → MCPSlot) (log : List I2COp)
    (id : Nat) (port : MCP23017_port_e) (pin : Nat) (state : MCP23017_pullUpState_e) :
    MCPOpResult Unit :=
  if MCP23017_checkId nbIC slots id = false then ⟨false, slots, log, none⟩
  else
    let reg := if port = MCP23017_port_e.A then MPC23017_REGISTER_GPPU_A
      else MPC23017_REGISTER_GPPU_B
    let log1 := log ++ [I2COp.read (slots id).i2cx (slots id).address reg]
    if (env log1).ok = false then ⟨false, incErr slots id, log1, none⟩
    else
      let value := (env log1).value &&& 0xFF
      let value2 := if state = MCP23017_pullUpState_e.LOW
        then value &&& (0xFF ^^^ (pin &&& 0xFF))
        else (value ||| pin) &&& 0xFF
      let log2 := log1 ++ [I2COp.write (slots id).i2cx (slots id).address reg value2]
      if (env log2).ok = false then ⟨false, incErr slots id, log2, none⟩
      else ⟨true, slots, log2, none⟩

/-- `MCP23017_getPullUp`: read of the GPPU register; bit set means pull-up
enabled. -/
def MCP23017_getPullUp (nbIC : Nat) (env : I2CEnv) (slots : Nat → MCPSlot) (log : List I2COp)
    (id : Nat) (port : MCP23017_port_e) (pin : Nat) : MCPOpResult MCP23017_pullUpState_e :=
  if MCP23017_checkId nbIC slots id = false then ⟨false, slots, log, none⟩
  else
    let reg := if port = MCP23017_port_e.A then MPC23017_REGISTER_GPPU_A
      else MPC23017_REGISTER_GPPU_B
    let log1 := log ++ [I2COp.read (slots id).i2cx (slots id).address reg]
    if (env log1).ok = false then ⟨false, incErr slots id, log1, none⟩
    else
      let value := (env log1).value &&& 0xFF
      ⟨true, slots, log1,
        some (if value &&& pin ≠ 0 then MCP23017_pullUpState_e.HIGH
          else MCP23017_pullUpState_e.LOW)⟩

/-- The register selected by `setIO`/`getIO`. -/
def iodirReg (port : MCP23017_port_e) : Nat :=
  if port = MCP23017_port_e.A then MPC23017_REGISTER_IODIR_A else MPC23017_REGISTER_IODIR_B

/-- The register selected by `setGPIO`. -/
def olatReg (port : MCP23017_port_e) : Nat :=
  if port = MCP23017_port_e.A then MPC23017_REGISTER_OLAT_A else MPC23017_REGISTER_OLAT_B

/-- The register selected by `getGPIO`/`getGPIO_all_pins`. -/
def gpioReg (port : MCP23017_port_e) : Nat :=
  if port = MCP23017_port_e.A then MPC23017_REGISTER_GPIO_A else MPC23017_REGISTER_GPIO_B

/-- The register selected by `setPullUp`/`getPullUp`. -/
def gppuReg (port : MCP23017_port_e) : Nat :=
  if port = MCP23017_port_e.A then MPC23017_REGISTER_GPPU_A else MPC23017_REGISTER_GPPU_B

/-- The register read issued by chip `id` on register `reg`. -/
def rmwReadOp (slots : Nat → MCPSlot) (id reg : Nat) : I2COp :=
  I2COp.read (slots id).i2cx (slots id).address reg

/-- The common shape of the three read-modify-write operations (`setIO`,
`setGPIO`, `setPullUp`): each is definitionally an instance of this. -/
def rmwShape (env : I2CEnv) (slots : Nat → MCPSlot) (log : List I2COp) (id : Nat)
    (chk : Bool) (reg : Nat) (tr : Nat → Nat) : MCPOpResult Unit :=
  if chk = false then ⟨false, slots, log, none⟩
  else
    let log1 := log ++ [I2COp.read (slots id).i2cx (slots id).address reg]
    if (env log1).ok = false then ⟨false, incErr slots id, log1, none⟩
    else
      let value := (env log1).value &&& 0xFF
      let value2 := tr value
      let log2 := log1 ++ [I2COp.write (slots id).i2cx (slots id).address reg value2]
      if (env log2).ok = false then ⟨false, incErr slots id, log2, none⟩
      else ⟨true, slots, log2, none⟩

/-- The common shape of the four read-only operations (`getIO`, `getGPIO`,
`getGPIO_all_pins`, `getPullUp`). -/
def getShape {α : Type} (env : I2CEnv) (slots : Nat → MCPSlot) (log : List I2COp) (id : Nat)
    (chk : Bool) (reg : Nat) (decode : Nat → α) : MCPOpResult α :=
  if chk = false then ⟨false, slots, log, none⟩
  else
    let log1 := log ++ [I2COp.read (slots id).i2cx (slots id).address reg]
    if (env log1).ok = false then ⟨false, incErr slots id, log1, none⟩
    else ⟨true, slots, log1, some (decode ((env log1).value &&& 0xFF))⟩

lemma rmw_spec (env : I2CEnv) (slots : Nat → MCPSlot) (log : List I2COp) (id : Nat)
    (chk : Bool) (reg : Nat) (tr : Nat → Nat) :
    (chk = false → rmwShape env slots log id chk reg tr = ⟨false, slots, log, none⟩) ∧
    (chk = true →
      ((rmwShape env slots log id chk reg tr).ok = false →
        (rmwShape env slots log id chk reg tr).slots = incErr slots id) ∧
      ((rmwShape env slots log id chk reg tr).ok = true →
        (rmwShape env slots log id chk reg tr).slots = slots) ∧
      ((env (log ++ [rmwReadOp slots id reg])).ok = false →
        rmwShape env slots log id chk reg tr
          = ⟨false, incErr slots id, log ++ [rmwReadOp slots id reg], none⟩)) := by
  constructor
  · intro h
    subst h
    rfl
  · intro h
    subst h
    simp only [rmwShape, rmwReadOp]
    by_cases h1 : (env (log ++ [I2COp.read (slots id).i2cx (slots id).address reg])).ok = false
    · simp [h1]
    · simp only [Bool.not_eq_false] at h1
      simp only [h1]
      by_cases h2 : (env (log ++ [I2COp.read (slots id).i2cx (slots id).address reg,
          I2COp.write (slots id).i2cx (slots id).address reg
            (tr ((env (log ++ [I2COp.read (slots id).i2cx (slots id).address reg])).value
              &&& 0xFF))])).ok = false
      · simp [h1, h2]
      · simp only [Bool.not_eq_false] at h2
        simp [h1, h2]

lemma get_spec {α : Type} (env : I2CEnv) (slots : Nat → MCPSlot) (log : List I2COp) (id : Nat)
    (chk : Bool) (reg : Nat) (decode : Nat → α) :
    (chk = false → getShape env slots log id chk reg decode = ⟨false, slots, log, none⟩) ∧
    (chk = true →
      ((getShape env slots log id chk reg decode).ok = false →
        (getShape env slots log id chk reg decode).slots = incErr slots id) ∧
      ((getShape env slots log id chk reg decode).ok = true →
        (getShape env slots log id chk reg decode).slots = slots) ∧
      ((env (log ++ [rmwReadOp slots id reg])).ok = false →
        getShape env slots log id chk reg decode
          = ⟨false, incErr slots id, log ++ [rmwReadOp slots id reg], none⟩)) := by
  constructor
  · intro h
    subst h
    rfl
  · intro h
    subst h
    simp only [getShape, rmwReadOp]
    by_cases h1 : (env (log ++ [I2COp.read (slots id).i2cx (slots id).address reg])).ok = false
    · simp [h1]
    · simp only [Bool.not_eq_false] at h1
      simp [h1]

/-- C9: every per-chip register operation first validates the chip id
(invalid id: `false`, nothing touched, no bus traffic); on an I2C read or
write failure it returns `false` and changes nothing but the chip's error
counter, which it increments exactly once (`incErr`); a failed read of a
read-modify-write pair issues no write (the log gains only the read); a
successful operation leaves the slot table unchanged. -/
theorem C9_register_op_errors :
    ∀ (nbIC : Nat) (env : I2CEnv) (slots : Nat → MCPSlot) (log : List I2COp)
      (id pin : Nat) (port : MCP23017_port_e) (direction : MCP23017_direction_e)
      (ps : MCP23017_pinState_e) (pu : MCP23017_pullUpState_e),
    (MCP23017_checkId nbIC slots id = false →
      MCP23017_setIO nbIC env slots log id port pin direction = ⟨false, slots, log, none⟩ ∧
      MCP23017_getIO nbIC env slots log id port pin = ⟨false, slots, log, none⟩ ∧
      MCP23017_setGPIO nbIC env slots log id port pin ps = ⟨false, slots, log, none⟩ ∧
      MCP23017_getGPIO nbIC env slots log id port pin = ⟨false, slots, log, none⟩ ∧
      MCP23017_getGPIO_all_pins nbIC env slots log id port = ⟨false, slots, log, none⟩ ∧
      MCP23017_setPullUp nbIC env slots log id port pin pu = ⟨false, slots, log, none⟩ ∧
      MCP23017_getPullUp nbIC env slots log id port pin = ⟨false, slots, log, none⟩) ∧
    (MCP23017_checkId nbIC slots id = true →
      ((( MCP23017_setIO nbIC env slots log id port pin direction).ok = false →
        ( MCP23017_setIO nbIC env slots log id port pin direction).slots = incErr slots id) ∧
       (( MCP23017_setIO nbIC env slots log id port pin direction).ok = true →
        ( MCP23017_setIO nbIC env slots log id port pin direction).slots = slots) ∧
       ((env (log ++ [rmwReadOp slots id (iodirReg port)])).ok = false →
        MCP23017_setIO nbIC env slots log id port pin direction
          = ⟨false, incErr slots id, log ++ [rmwReadOp slots id (iodirReg port)], none⟩)) ∧
      ((( MCP23017_getIO nbIC env slots log id port pin).ok = false →
        ( MCP23017_getIO nbIC env slots log id port pin).slots = incErr slots id) ∧
       (( MCP23017_getIO nbIC env slots log id port pin).ok = true →
        ( MCP23017_getIO nbIC env slots log id port pin).slots = slots) ∧
       ((env (log ++ [rmwReadOp slots id (iodirReg port)])).ok = false →
        MCP23017_getIO nbIC env slots log id port pin
          = ⟨false, incErr slots id, log ++ [rmwReadOp slots id (iodirReg port)], none⟩)) ∧
      ((( MCP23017_setGPIO nbIC env slots log id port pin ps).ok = false →
        ( MCP23017_setGPIO nbIC env slots log id port pin ps).slots = incErr slots id) ∧
       (( MCP23017_setGPIO nbIC env slots log id port pin ps).ok = true →
        ( MCP23017_setGPIO nbIC env slots log id port pin ps).slots = slots) ∧
       ((env (log ++ [rmwReadOp slots id (olatReg port)])).ok = false →
        MCP23017_setGPIO nbIC env slots log id port pin ps
          = ⟨false, incErr slots id, log ++ [rmwReadOp slots id (olatReg port)], none⟩)) ∧
      ((( MCP23017_getGPIO nbIC env slots log id port pin).ok = false →
        ( MCP23017_getGPIO nbIC env slots log id port pin).slots = incErr slots id) ∧
       (( MCP23017_getGPIO nbIC env slots log id port pin).ok = true →
        ( MCP23017_getGPIO nbIC env slots log id port pin).slots = slots) ∧
       ((env (log ++ [rmwReadOp slots id (gpioReg port)])).ok = false →
        MCP23017_getGPIO nbIC env slots log id port pin
          = ⟨false, incErr slots id, log ++ [rmwReadOp slots id (gpioReg port)], none⟩)) ∧
      (((MCP23017_getGPIO_all_pins nbIC env slots log id port).ok = false →
        (MCP23017_getGPIO_all_pins nbIC env slots log id port).slots = incErr slots id) ∧
       ((MCP23017_getGPIO_all_pins nbIC env slots log id port).ok = true →
        (MCP23017_getGPIO_all_pins nbIC env slots log id port).slots = slots) ∧
       ((env (log ++ [rmwReadOp slots id (gpioReg port)])).ok = false →
        MCP23017_getGPIO_all_pins nbIC env slots log id port
          = ⟨false, incErr slots id, log ++ [rmwReadOp slots id (gpioReg port)], none⟩)) ∧
      (((MCP23017_setPullUp nbIC env slots log id port pin pu).ok = false →
        (MCP23017_setPullUp nbIC env slots log id port pin pu).slots = incErr slots id) ∧
       ((MCP23017_setPullUp nbIC env slots log id port pin pu).ok = true →
        (MCP23017_setPullUp nbIC env slots log id port pin pu).slots = slots) ∧
       ((env (log ++ [rmwReadOp slots id (gppuReg port)])).ok = false →
        MCP23017_setPullUp nbIC env slots log id port pin pu
          = ⟨false, incErr slots id, log ++ [rmwReadOp slots id (gppuReg port)], none⟩)) ∧
      (((MCP23017_getPullUp nbIC env slots log id port pin).ok = false →
        (MCP23017_getPullUp nbIC env slots log id port pin).slots = incErr slots id) ∧
       ((MCP23017_getPullUp nbIC env slots log id port pin).ok = true →
        (MCP23017_getPullUp nbIC env slots log id port pin).slots = slots) ∧
       ((env (log ++ [rmwReadOp slots id (gppuReg port)])).ok = false →
        MCP23017_getPullUp nbIC env slots log id port pin
          = ⟨false, incErr slots id, log ++ [rmwReadOp slots id (gppuReg port)], none⟩))) := by
  intro nbIC env slots log id pin port direction ps pu
  have e1 : MCP23017_setIO nbIC env slots log id port pin direction
      = rmwShape env slots log id (MCP23017_checkId nbIC slots id) (iodirReg port)
        (fun value => if direction = MCP23017_direction_e.OUTPUT
          then value &&& (0xFF ^^^ (pin &&& 0xFF)) else (value ||| pin) &&& 0xFF) := rfl
  have e2 : MCP23017_getIO nbIC env slots log id port pin
      = getShape env slots log id (MCP23017_checkId nbIC slots id) (iodirReg port)
        (fun value => if value &&& pin ≠ 0 then MCP23017_direction_e.INPUT
          else MCP23017_direction_e.OUTPUT) := rfl
  have e3 : MCP23017_setGPIO nbIC env slots log id port pin ps
      = rmwShape env slots log id (MCP23017_checkId nbIC slots id) (olatReg port)
        (fun value => if ps = MCP23017_pinState_e.LOW
          then value &&& (0xFF ^^^ (pin &&& 0xFF)) else (value ||| pin) &&& 0xFF) := rfl
  have e4 : MCP23017_getGPIO nbIC env slots log id port pin
      = getShape env slots log id (MCP23017_checkId nbIC slots id) (gpioReg port)
        (fun value => if value &&& pin ≠ 0 then MCP23017_pinState_e.HIGH
          else MCP23017_pinState_e.LOW) := rfl
  have e5 : MCP23017_getGPIO_all_pins nbIC env slots log id port
      = getShape env slots log id (MCP23017_checkId nbIC slots id) (gpioReg port)
        (fun value => value) := rfl
  have e6 : MCP23017_setPullUp nbIC env slots log id port pin pu
      = rmwShape env slots log id (MCP23017_checkId nbIC slots id) (gppuReg port)
        (fun value => if pu = MCP23017_pullUpState_e.LOW
          then value &&& (0xFF ^^^ (pin &&& 0xFF)) else (value ||| pin) &&& 0xFF) := rfl
  have e7 : MCP23017_getPullUp nbIC env slots log id port pin
      = getShape env slots log id (MCP23017_checkId nbIC slots id) (gppuReg port)
        (fun value => if value &&& pin ≠ 0 then MCP23017_pullUpState_e.HIGH
          else MCP23017_pullUpState_e.LOW) := rfl
  constructor
  · intro h
    rw [e1, e2, e3, e4, e5, e6, e7]
    exact ⟨(rmw_spec _ _ _ _ _ _ _).1 h, (get_spec _ _ _ _ _ _ _).1 h,
      (rmw_spec _ _ _ _ _ _ _).1 h, (get_spec _ _ _ _ _ _ _).1 h,
      (get_spec _ _ _ _ _ _ _).1 h, (rmw_spec _ _ _ _ _ _ _).1 h,
      (get_spec _ _ _ _ _ _ _).1 h⟩
  · intro h
    rw [e1, e2, e3, e4, e5, e6, e7]
    exact ⟨(rmw_spec _ _ _ _ _ _ _).2 h, (get_spec _ _ _ _ _ _ _).2 h,
      (rmw_spec _ _ _ _ _ _ _).2 h, (get_spec _ _ _ _ _ _ _).2 h,
      (get_spec _ _ _ _ _ _ _).2 h, (rmw_spec _ _ _ _ _ _ _).2 h,
      (get_spec _ _ _ _ _ _ _).2 h⟩

/-- An I2C bus on which every transaction fails. -/
def failEnv : I2CEnv := fun _ => ⟨false, 0⟩

/-- A slot table whose every slot is in use at bus address 0x40. -/
def oneUsedSlot : Nat → MCPSlot := fun _ => ⟨true, 0x40, 0, 0⟩

/-- Witness for `C9_register_op_errors`: chip 0 of a one-chip table, with
every bus transaction failing. -/
theorem C9_register_op_errors_witness :
    MCP23017_checkId 1 oneUsedSlot 0 = true ∧
    (failEnv ([] ++ [rmwReadOp oneUsedSlot 0 (iodirReg MCP23017_port_e.A)])).ok = false ∧
    MCP23017_setIO 1 failEnv oneUsedSlot [] 0 MCP23017_port_e.A 1 MCP23017_direction_e.OUTPUT
      = ⟨false, incErr oneUsedSlot 0,
          [] ++ [rmwReadOp oneUsedSlot 0 (iodirReg MCP23017_port_e.A)], none⟩ := by
  refine ⟨by decide, by decide, ?_⟩
  exact ((C9_register_op_errors 1 failEnv oneUsedSlot [] 0 1 MCP23017_port_e.A
    MCP23017_direction_e.OUTPUT MCP23017_pinState_e.LOW MCP23017_pullUpState_e.HIGH).2
      (by decide)).1.2.2 (by decide)



lemma and7_of_le {hw : Nat} (h : hw ≤ 7) : hw &&& 0x07 = hw := by
  have h8 : hw &&& 0x07 = hw % 8 := by
    rw [show (0x07 : Nat) = 2 ^ 3 - 1 from by norm_num, Nat.and_pow_two_sub_one_eq_mod]
  rw [h8, Nat.mod_eq_of_lt (by omega)]

/-- The 7-bit bus address computed by `MCP23017_initIc` for a hardware
address already validated to be at most 7. -/
def busAddress (hw : Nat) : Nat := (0x20 <<< 1) ||| (hw <<< 1)

lemma initIc_spec : ∀ (nbIC : Nat) (env : I2CEnv) (slots : Nat → MCPSlot) (log : List I2COp)
    (id bus hw : Nat), id < nbIC → hw ≤ 7 →
    ∀ ok slots' log', MCP23017_initIc nbIC env slots log id bus hw = (ok, slots', log') →
    (∃ k, k ≤ 14 ∧ log' = log ++ (initIcOps bus (busAddress hw)).take k) ∧
    (ok = true → log' = log ++ initIcOps bus (busAddress hw) ∧
      slots' id = ⟨true, busAddress hw, bus, 0⟩ ∧
      (env (log ++ (initIcOps bus (busAddress hw)).take 12)).value &&& 0xFF = 0x00 ∧
      (env (log ++ (initIcOps bus (busAddress hw)).take 13)).value &&& 0xFF = 0xFF ∧
      (env (log ++ (initIcOps bus (busAddress hw)).take 14)).value &&& 0xFF = 0xFF) ∧
    (ok = false → (slots' id).used = false) ∧
    (∀ j, j ≠ id → slots' j = slots j) := by
  intro nbIC env slots log id bus hw hid hhw ok slots' log' hyp
  simp only [MCP23017_initIc] at hyp
  rw [if_neg (by omega : ¬ id ≥ nbIC)] at hyp
  rw [and7_of_le hhw] at hyp
  rw [show ((0x20 <<< 1) ||| (hw <<< 1) : Nat) = busAddress hw from rfl] at hyp
  by_cases hc1 : (env (log ++
     [I2COp.init bus])).ok = false
  · rw [if_pos hc1] at hyp
    injection hyp with hok hrest
    injection hrest with hsl hlg
    subst hok
    subst hsl
    subst hlg
    refine ⟨⟨1, by omega, rfl⟩, fun h => absurd h (by decide),
      fun _ => by rw [Function.update_same], fun j hj => Function.update_noteq hj _ _⟩
  · rw [if_neg hc1] at hyp
    by_cases hc2 : (env (log ++
       [I2COp.init bus,
        I2COp.read bus (busAddress hw) MPC23017_REGISTER_IODIR_A])).ok = false
    · rw [if_pos hc2] at hyp
      injection hyp with hok hrest
      injection hrest with hsl hlg
      subst hok
      subst hsl
      subst hlg
      refine ⟨⟨2, by omega, rfl⟩, fun h => absurd h (by decide),
        fun _ => by rw [Function.update_same], fun j hj => Function.update_noteq hj _ _⟩
    · rw [if_neg hc2] at hyp
      by_cases hc3 : (env (log ++
         [I2COp.init bus,
          I2COp.read bus (busAddress hw) MPC23017_REGISTER_IODIR_A,
          I2COp.write bus (busAddress hw) MPC23017_REGISTER_IODIR_A 0x00])).ok = false
      · rw [if_pos hc3] at hyp
        injection hyp with hok hrest
        injection hrest with hsl hlg
        subst hok
        subst hsl
        subst hlg
        refine ⟨⟨3, by omega, rfl⟩, fun h => absurd h (by decide),
          fun _ => by rw [Function.update_same], fun j hj => Function.update_noteq hj _ _⟩
      · rw [if_neg hc3] at hyp
        by_cases hc4 : (env (log ++
           [I2COp.init bus,
            I2COp.read bus (busAddress hw) MPC23017_REGISTER_IODIR_A,
            I2COp.write bus (busAddress hw) MPC23017_REGISTER_IODIR_A 0x00,
            I2COp.write bus (busAddress hw) MPC23017_REGISTER_IODIR_B 0xFF])).ok = false
        · rw [if_pos hc4] at hyp
          injection hyp with hok hrest
          injection hrest with hsl hlg
          subst hok
          subst hsl
          subst hlg
          refine ⟨⟨4, by omega, rfl⟩, fun h => absurd h (by decide),
            fun _ => by rw [Function.update_same], fun j hj => Function.update_noteq hj _ _⟩
        · rw [if_neg hc4] at hyp
          by_cases hc5 : (env (log ++
             [I2COp.init bus,
              I2COp.read bus (busAddress hw) MPC23017_REGISTER_IODIR_A,
              I2COp.write bus (busAddress hw) MPC23017_REGISTER_IODIR_A 0x00,
              I2COp.write bus (busAddress hw) MPC23017_REGISTER_IODIR_B 0xFF,
              I2COp.write bus (busAddress hw) MPC23017_REGISTER_GPPU_B 0xFF])).ok = false
          · rw [if_pos hc5] at hyp
            injection hyp with hok hrest
            injection hrest with hsl hlg
            subst hok
            subst hsl
            subst hlg
            refine ⟨⟨5, by omega, rfl⟩, fun h => absurd h (by decide),
              fun _ => by rw [Function.update_same], fun j hj => Function.update_noteq hj _ _⟩
          · rw [if_neg hc5] at hyp
            by_cases hc6 : (env (log ++
               [I2COp.init bus,
                I2COp.read bus (busAddress hw) MPC23017_REGISTER_IODIR_A,
                I2COp.write bus (busAddress hw) MPC23017_REGISTER_IODIR_A 0x00,
                I2COp.write bus (busAddress hw) MPC23017_REGISTER_IODIR_B 0xFF,
                I2COp.write bus (busAddress hw) MPC23017_REGISTER_GPPU_B 0xFF,
                I2COp.write bus (busAddress hw) MPC23017_REGISTER_GPPU_A 0x00])).ok = false
            · rw [if_pos hc6] at hyp
              injection hyp with hok hrest
              injection hrest with hsl hlg
              subst hok
              subst hsl
              subst hlg
              refine ⟨⟨6, by omega, rfl⟩, fun h => absurd h (by decide),
                fun _ => by rw [Function.update_same], fun j hj => Function.update_noteq hj _ _⟩
            · rw [if_neg hc6] at hyp
              by_cases hc7 : (env (log ++
                 [I2COp.init bus,
                  I2COp.read bus (busAddress hw) MPC23017_REGISTER_IODIR_A,
                  I2COp.write bus (busAddress hw) MPC23017_REGISTER_IODIR_A 0x00,
                  I2COp.write bus (busAddress hw) MPC23017_REGISTER_IODIR_B 0xFF,
                  I2COp.write bus (busAddress hw) MPC23017_REGISTER_GPPU_B 0xFF,
                  I2COp.write bus (busAddress hw) MPC23017_REGISTER_GPPU_A 0x00,
                  I2COp.write bus (busAddress hw) MPC23017_REGISTER_OLAT_A 0xFF])).ok = false
              · rw [if_pos hc7] at hyp
                injection hyp with hok hrest
                injection hrest with hsl hlg
                subst hok
                subst hsl
                subst hlg
                refine ⟨⟨7, by omega, rfl⟩, fun h => absurd h (by decide),
                  fun _ => by rw [Function.update_same], fun j hj => Function.update_noteq hj _ _⟩
              · rw [if_neg hc7] at hyp
                by_cases hc8 : (env (log ++
                   [I2COp.init bus,
                    I2COp.read bus (busAddress hw) MPC23017_REGISTER_IODIR_A,
                    I2COp.write bus (busAddress hw) MPC23017_REGISTER_IODIR_A 0x00,
                    I2COp.write bus (busAddress hw) MPC23017_REGISTER_IODIR_B 0xFF,
                    I2COp.write bus (busAddress hw) MPC23017_REGISTER_GPPU_B 0xFF,
                    I2COp.write bus (busAddress hw) MPC23017_REGISTER_GPPU_A 0x00,
                    I2COp.write bus (busAddress hw) MPC23017_REGISTER_OLAT_A 0xFF,
                    I2COp.write bus (busAddress hw) MPC23017_REGISTER_IOCON_A MCP23017_IOCON_BYTE])).ok = false
                · rw [if_pos hc8] at hyp
                  injection hyp with hok hrest
                  injection hrest with hsl hlg
                  subst hok
                  subst hsl
                  subst hlg
                  refine ⟨⟨8, by omega, rfl⟩, fun h => absurd h (by decide),
                    fun _ => by rw [Function.update_same], fun j hj => Function.update_noteq hj _ _⟩
                · rw [if_neg hc8] at hyp
                  by_cases hc9 : (env (log ++
                     [I2COp.init bus,
                      I2COp.read bus (busAddress hw) MPC23017_REGISTER_IODIR_A,
                      I2COp.write bus (busAddress hw) MPC23017_REGISTER_IODIR_A 0x00,
                      I2COp.write bus (busAddress hw) MPC23017_REGISTER_IODIR_B 0xFF,
                      I2COp.write bus (busAddress hw) MPC23017_REGISTER_GPPU_B 0xFF,
                      I2COp.write bus (busAddress hw) MPC23017_REGISTER_GPPU_A 0x00,
                      I2COp.write bus (busAddress hw) MPC23017_REGISTER_OLAT_A 0xFF,
                      I2COp.write bus (busAddress hw) MPC23017_REGISTER_IOCON_A MCP23017_IOCON_BYTE,
                      I2COp.write bus (busAddress hw) MPC23017_REGISTER_IOCON_B MCP23017_IOCON_BYTE])).ok = false
                  · rw [if_pos hc9] at hyp
                    injection hyp with hok hrest
                    injection hrest with hsl hlg
                    subst hok
                    subst hsl
                    subst hlg
                    refine ⟨⟨9, by omega, rfl⟩, fun h => absurd h (by decide),
                      fun _ => by rw [Function.update_same], fun j hj => Function.update_noteq hj _ _⟩
                  · rw [if_neg hc9] at hyp
                    by_cases hc10 : (env (log ++
                       [I2COp.init bus,
                        I2COp.read bus (busAddress hw) MPC23017_REGISTER_IODIR_A,
                        I2COp.write bus (busAddress hw) MPC23017_REGISTER_IODIR_A 0x00,
                        I2COp.write bus (busAddress hw) MPC23017_REGISTER_IODIR_B 0xFF,
                        I2COp.write bus (busAddress hw) MPC23017_REGISTER_GPPU_B 0xFF,
                        I2COp.write bus (busAddress hw) MPC23017_REGISTER_GPPU_A 0x00,
                        I2COp.write bus (busAddress hw) MPC23017_REGISTER_OLAT_A 0xFF,
                        I2COp.write bus (busAddress hw) MPC23017_REGISTER_IOCON_A MCP23017_IOCON_BYTE,
                        I2COp.write bus (busAddress hw) MPC23017_REGISTER_IOCON_B MCP23017_IOCON_BYTE,
                        I2COp.write bus (busAddress hw) MPC23017_REGISTER_GPINTEN_A 0x00])).ok = false
                    · rw [if_pos hc10] at hyp
                      injection hyp with hok hrest
                      injection hrest with hsl hlg
                      subst hok
                      subst hsl
                      subst hlg
                      refine ⟨⟨10, by omega, rfl⟩, fun h => absurd h (by decide),
                        fun _ => by rw [Function.update_same], fun j hj => Function.update_noteq hj _ _⟩
                    · rw [if_neg hc10] at hyp
                      by_cases hc11 : (env (log ++
                         [I2COp.init bus,
                          I2COp.read bus (busAddress hw) MPC23017_REGISTER_IODIR_A,
                          I2COp.write bus (busAddress hw) MPC23017_REGISTER_IODIR_A 0x00,
                          I2COp.write bus (busAddress hw) MPC23017_REGISTER_IODIR_B 0xFF,
                          I2COp.write bus (busAddress hw) MPC23017_REGISTER_GPPU_B 0xFF,
                          I2COp.write bus (busAddress hw) MPC23017_REGISTER_GPPU_A 0x00,
                          I2COp.write bus (busAddress hw) MPC23017_REGISTER_OLAT_A 0xFF,
                          I2COp.write bus (busAddress hw) MPC23017_REGISTER_IOCON_A MCP23017_IOCON_BYTE,
                          I2COp.write bus (busAddress hw) MPC23017_REGISTER_IOCON_B MCP23017_IOCON_BYTE,
                          I2COp.write bus (busAddress hw) MPC23017_REGISTER_GPINTEN_A 0x00,
                          I2COp.write bus (busAddress hw) MPC23017_REGISTER_GPINTEN_B 0x00])).ok = false
                      · rw [if_pos hc11] at hyp
                        injection hyp with hok hrest
                        injection hrest with hsl hlg
                        subst hok
                        subst hsl
                        subst hlg
                        refine ⟨⟨11, by omega, rfl⟩, fun h => absurd h (by decide),
                          fun _ => by rw [Function.update_same], fun j hj => Function.update_noteq hj _ _⟩
                      · rw [if_neg hc11] at hyp
                        by_cases hc12 : (env (log ++
                           [I2COp.init bus,
                            I2COp.read bus (busAddress hw) MPC23017_REGISTER_IODIR_A,
                            I2COp.write bus (busAddress hw) MPC23017_REGISTER_IODIR_A 0x00,
                            I2COp.write bus (busAddress hw) MPC23017_REGISTER_IODIR_B 0xFF,
                            I2COp.write bus (busAddress hw) MPC23017_REGISTER_GPPU_B 0xFF,
                            I2COp.write bus (busAddress hw) MPC23017_REGISTER_GPPU_A 0x00,
                            I2COp.write bus (busAddress hw) MPC23017_REGISTER_OLAT_A 0xFF,
                            I2COp.write bus (busAddress hw) MPC23017_REGISTER_IOCON_A MCP23017_IOCON_BYTE,
                            I2COp.write bus (busAddress hw) MPC23017_REGISTER_IOCON_B MCP23017_IOCON_BYTE,
                            I2COp.write bus (busAddress hw) MPC23017_REGISTER_GPINTEN_A 0x00,
                            I2COp.write bus (busAddress hw) MPC23017_REGISTER_GPINTEN_B 0x00,
                            I2COp.read bus (busAddress hw) MPC23017_REGISTER_IODIR_A])).ok = false
                        · rw [if_pos hc12] at hyp
                          injection hyp with hok hrest
                          injection hrest with hsl hlg
                          subst hok
                          subst hsl
                          subst hlg
                          refine ⟨⟨12, by omega, rfl⟩, fun h => absurd h (by decide),
                            fun _ => by rw [Function.update_same], fun j hj => Function.update_noteq hj _ _⟩
                        · rw [if_neg hc12] at hyp
                          by_cases hc13 : (env (log ++
                             [I2COp.init bus,
                              I2COp.read bus (busAddress hw) MPC23017_REGISTER_IODIR_A,
                              I2COp.write bus (busAddress hw) MPC23017_REGISTER_IODIR_A 0x00,
                              I2COp.write bus (busAddress hw) MPC23017_REGISTER_IODIR_B 0xFF,
                              I2COp.write bus (busAddress hw) MPC23017_REGISTER_GPPU_B 0xFF,
                              I2COp.write bus (busAddress hw) MPC23017_REGISTER_GPPU_A 0x00,
                              I2COp.write bus (busAddress hw) MPC23017_REGISTER_OLAT_A 0xFF,
                              I2COp.write bus (busAddress hw) MPC23017_REGISTER_IOCON_A MCP23017_IOCON_BYTE,
                              I2COp.write bus (busAddress hw) MPC23017_REGISTER_IOCON_B MCP23017_IOCON_BYTE,
                              I2COp.write bus (busAddress hw) MPC23017_REGISTER_GPINTEN_A 0x00,
                              I2COp.write bus (busAddress hw) MPC23017_REGISTER_GPINTEN_B 0x00,
                              I2COp.read bus (busAddress hw) MPC23017_REGISTER_IODIR_A,
                              I2COp.read bus (busAddress hw) MPC23017_REGISTER_IODIR_B])).ok = false
                          · rw [if_pos hc13] at hyp
                            injection hyp with hok hrest
                            injection hrest with hsl hlg
                            subst hok
                            subst hsl
                            subst hlg
                            refine ⟨⟨13, by omega, rfl⟩, fun h => absurd h (by decide),
                              fun _ => by rw [Function.update_same], fun j hj => Function.update_noteq hj _ _⟩
                          · rw [if_neg hc13] at hyp
                            by_cases hc14 : (env (log ++
                               [I2COp.init bus,
                                I2COp.read bus (busAddress hw) MPC23017_REGISTER_IODIR_A,
                                I2COp.write bus (busAddress hw) MPC23017_REGISTER_IODIR_A 0x00,
                                I2COp.write bus (busAddress hw) MPC23017_REGISTER_IODIR_B 0xFF,
                                I2COp.write bus (busAddress hw) MPC23017_REGISTER_GPPU_B 0xFF,
                                I2COp.write bus (busAddress hw) MPC23017_REGISTER_GPPU_A 0x00,
                                I2COp.write bus (busAddress hw) MPC23017_REGISTER_OLAT_A 0xFF,
                                I2COp.write bus (busAddress hw) MPC23017_REGISTER_IOCON_A MCP23017_IOCON_BYTE,
                                I2COp.write bus (busAddress hw) MPC23017_REGISTER_IOCON_B MCP23017_IOCON_BYTE,
                                I2COp.write bus (busAddress hw) MPC23017_REGISTER_GPINTEN_A 0x00,
                                I2COp.write bus (busAddress hw) MPC23017_REGISTER_GPINTEN_B 0x00,
                                I2COp.read bus (busAddress hw) MPC23017_REGISTER_IODIR_A,
                                I2COp.read bus (busAddress hw) MPC23017_REGISTER_IODIR_B,
                                I2COp.read bus (busAddress hw) MPC23017_REGISTER_GPPU_B])).ok = false
                            · rw [if_pos hc14] at hyp
                              injection hyp with hok hrest
                              injection hrest with hsl hlg
                              subst hok
                              subst hsl
                              subst hlg
                              refine ⟨⟨14, by omega, rfl⟩, fun h => absurd h (by decide),
                                fun _ => by rw [Function.update_same], fun j hj => Function.update_noteq hj _ _⟩
                            · rw [if_neg hc14] at hyp
                              by_cases hv : (env (log ++
                                 [I2COp.init bus,
                                  I2COp.read bus (busAddress hw) MPC23017_REGISTER_IODIR_A,
                                  I2COp.write bus (busAddress hw) MPC23017_REGISTER_IODIR_A 0x00,
                                  I2COp.write bus (busAddress hw) MPC23017_REGISTER_IODIR_B 0xFF,
                                  I2COp.write bus (busAddress hw) MPC23017_REGISTER_GPPU_B 0xFF,
                                  I2COp.write bus (busAddress hw) MPC23017_REGISTER_GPPU_A 0x00,
                                  I2COp.write bus (busAddress hw) MPC23017_REGISTER_OLAT_A 0xFF,
                                  I2COp.write bus (busAddress hw) MPC23017_REGISTER_IOCON_A MCP23017_IOCON_BYTE,
                                  I2COp.write bus (busAddress hw) MPC23017_REGISTER_IOCON_B MCP23017_IOCON_BYTE,
                                  I2COp.write bus (busAddress hw) MPC23017_REGISTER_GPINTEN_A 0x00,
                                  I2COp.write bus (busAddress hw) MPC23017_REGISTER_GPINTEN_B 0x00,
                                  I2COp.read bus (busAddress hw) MPC23017_REGISTER_IODIR_A])).value &&& 0xFF ≠ 0x00 ∨
                                  (env (log ++
                                 [I2COp.init bus,
                                  I2COp.read bus (busAddress hw) MPC23017_REGISTER_IODIR_A,
                                  I2COp.write bus (busAddress hw) MPC23017_REGISTER_IODIR_A 0x00,
                                  I2COp.write bus (busAddress hw) MPC23017_REGISTER_IODIR_B 0xFF,
                                  I2COp.write bus (busAddress hw) MPC23017_REGISTER_GPPU_B 0xFF,
                                  I2COp.write bus (busAddress hw) MPC23017_REGISTER_GPPU_A 0x00,
                                  I2COp.write bus (busAddress hw) MPC23017_REGISTER_OLAT_A 0xFF,
                                  I2COp.write bus (busAddress hw) MPC23017_REGISTER_IOCON_A MCP23017_IOCON_BYTE,
                                  I2COp.write bus (busAddress hw) MPC23017_REGISTER_IOCON_B MCP23017_IOCON_BYTE,
                                  I2COp.write bus (busAddress hw) MPC23017_REGISTER_GPINTEN_A 0x00,
                                  I2COp.write bus (busAddress hw) MPC23017_REGISTER_GPINTEN_B 0x00,
                                  I2COp.read bus (busAddress hw) MPC23017_REGISTER_IODIR_A,
                                  I2COp.read bus (busAddress hw) MPC23017_REGISTER_IODIR_B])).value &&& 0xFF ≠ 0xFF ∨
                                  (env (log ++
                                 [I2COp.init bus,
                                  I2COp.read bus (busAddress hw) MPC23017_REGISTER_IODIR_A,
                                  I2COp.write bus (busAddress hw) MPC23017_REGISTER_IODIR_A 0x00,
                                  I2COp.write bus (busAddress hw) MPC23017_REGISTER_IODIR_B 0xFF,
                                  I2COp.write bus (busAddress hw) MPC23017_REGISTER_GPPU_B 0xFF,
                                  I2COp.write bus (busAddress hw) MPC23017_REGISTER_GPPU_A 0x00,
                                  I2COp.write bus (busAddress hw) MPC23017_REGISTER_OLAT_A 0xFF,
                                  I2COp.write bus (busAddress hw) MPC23017_REGISTER_IOCON_A MCP23017_IOCON_BYTE,
                                  I2COp.write bus (busAddress hw) MPC23017_REGISTER_IOCON_B MCP23017_IOCON_BYTE,
                                  I2COp.write bus (busAddress hw) MPC23017_REGISTER_GPINTEN_A 0x00,
                                  I2COp.write bus (busAddress hw) MPC23017_REGISTER_GPINTEN_B 0x00,
                                  I2COp.read bus (busAddress hw) MPC23017_REGISTER_IODIR_A,
                                  I2COp.read bus (busAddress hw) MPC23017_REGISTER_IODIR_B,
                                  I2COp.read bus (busAddress hw) MPC23017_REGISTER_GPPU_B])).value &&& 0xFF ≠ 0xFF
                              · rw [if_pos hv] at hyp
                                injection hyp with hok hrest
                                injection hrest with hsl hlg
                                subst hok
                                subst hsl
                                subst hlg
                                refine ⟨⟨14, by omega, rfl⟩, fun h => absurd h (by decide),
                                  fun _ => by rw [Function.update_same], fun j hj => Function.update_noteq hj _ _⟩
                              · rw [if_neg hv] at hyp
                                push_neg at hv
                                obtain ⟨hv1, hv2, hv3⟩ := hv
                                injection hyp with hok hrest
                                injection hrest with hsl hlg
                                subst hok
                                subst hsl
                                subst hlg
                                refine ⟨⟨14, by omega, rfl⟩, ?_, fun h => absurd h (by decide),
                                  fun j hj => Function.update_noteq hj _ _⟩
                                intro _
                                exact ⟨rfl, by rw [Function.update_same], hv1, hv2, hv3⟩
/-- C8: for a slot index in range and a hardware address at most 7,
`MCP23017_initIc` (run by `add`) computes the bus address
`(0x20<<1)|(hw<<1)`, issues a prefix of the fixed transaction sequence
(init; communication-test read; port A all outputs; port B all inputs;
port B pull-ups on; port A pull-ups off; port A latch all high; the IOCON
byte to both port config registers; interrupts off on both ports; read
back IODIR_A, IODIR_B, GPPU_B) in this order, aborting at the first
failure; success requires the whole sequence plus read-back values 0x00,
0xFF, 0xFF and then claims the slot; any failure leaves the slot free;
other slots are never touched. -/
theorem C8_init_sequence :
    ∀ (nbIC : Nat) (env : I2CEnv) (slots : Nat → MCPSlot) (log : List I2COp)
    (id bus hw : Nat), id < nbIC → hw ≤ 7 →
    ∀ ok slots' log', MCP23017_initIc nbIC env slots log id bus hw = (ok, slots', log') →
    (∃ k, k ≤ 14 ∧ log' = log ++ (initIcOps bus (busAddress hw)).take k) ∧
    (ok = true → log' = log ++ initIcOps bus (busAddress hw) ∧
      slots' id = ⟨true, busAddress hw, bus, 0⟩ ∧
      (env (log ++ (initIcOps bus (busAddress hw)).take 12)).value &&& 0xFF = 0x00 ∧
      (env (log ++ (initIcOps bus (busAddress hw)).take 13)).value &&& 0xFF = 0xFF ∧
      (env (log ++ (initIcOps bus (busAddress hw)).take 14)).value &&& 0xFF = 0xFF) ∧
    (ok = false → (slots' id).used = false) ∧
    (∀ j, j ≠ id → slots' j = slots j) :=
  initIc_spec

/-- A slot table with every slot free. -/
def freeSlots : Nat → MCPSlot := fun _ => ⟨false, 0, 0, 0⟩

/-- A healthy bus: every transaction succeeds, reads of IODIR_B and GPPU_B
give 0xFF and all other reads give 0x00. -/
def goodEnv : I2CEnv := fun h =>
  match h.getLast? with
  | some (I2COp.read _ _ reg) =>
    ⟨true, if reg = MPC23017_REGISTER_IODIR_B ∨ reg = MPC23017_REGISTER_GPPU_B
      then 0xFF else 0x00⟩
  | _ => ⟨true, 0⟩

/-- Witness for `C8_init_sequence`: slot 0 of a one-chip table over a
healthy bus; the init succeeds and the log is a prefix of the sequence. -/
theorem C8_init_sequence_witness :
    (0 : Nat) < 1 ∧ (0 : Nat) ≤ 7 ∧
    (MCP23017_initIc 1 goodEnv freeSlots [] 0 0 0).1 = true ∧
    (∃ k, k ≤ 14 ∧ (MCP23017_initIc 1 goodEnv freeSlots [] 0 0 0).2.2
      = [] ++ (initIcOps 0 (busAddress 0)).take k) := by
  refine ⟨by decide, by decide, by decide, ?_⟩
  exact (C8_init_sequence 1 goodEnv freeSlots [] 0 0 0 (by decide) (by decide)
    (MCP23017_initIc 1 goodEnv freeSlots [] 0 0 0).1
    (MCP23017_initIc 1 goodEnv freeSlots [] 0 0 0).2.1
    (MCP23017_initIc 1 goodEnv freeSlots [] 0 0 0).2.2 rfl).1

lemma findFreeFrom_some {slots : Nat → MCPSlot} :
    ∀ fuel i j, findFreeFrom slots i fuel = some j →
      i ≤ j ∧ j < i + fuel ∧ (slots j).used = false := by
  intro fuel
  induction fuel with
  | zero =>
    intro i j h
    exact absurd h (by simp [findFreeFrom])
  | succ n ih =>
    intro i j h
    rw [findFreeFrom] at h
    by_cases hu : (slots i).used = false
    · rw [if_pos hu] at h
      have hij : i = j := Option.some.inj h
      subst hij
      exact ⟨le_refl i, by omega, hu⟩
    · rw [if_neg hu] at h
      obtain ⟨h1, h2, h3⟩ := ih (i + 1) j h
      exact ⟨by omega, by omega, h3⟩

/-- C7: `MCP23017_add` returns the ERROR handle (`none`) when the hardware
address exceeds 7 or no free slot exists — leaving the slot table
untouched — and when the initialization of the chosen slot fails, in which
case that slot is free again; on success it returns the first free slot's
index, which is then marked in use. -/
theorem C7_add_slot_management :
    ∀ (nbIC : Nat) (env : I2CEnv) (slots : Nat → MCPSlot) (log : List I2COp) (bus hw : Nat),
    (hw > 7 → MCP23017_add nbIC env slots log bus hw = (none, slots, log)) ∧
    (findFreeFrom slots 0 nbIC = none →
      MCP23017_add nbIC env slots log bus hw = (none, slots, log)) ∧
    (∀ i, hw ≤ 7 → findFreeFrom slots 0 nbIC = some i →
      ∀ ok slots' log', MCP23017_initIc nbIC env slots log i bus hw = (ok, slots', log') →
      (ok = true → MCP23017_add nbIC env slots log bus hw = (some i, slots', log') ∧
        (slots' i).used = true) ∧
      (ok = false → MCP23017_add nbIC env slots log bus hw = (none, slots', log') ∧
        (slots' i).used = false)) := by
  intro nbIC env slots log bus hw
  refine ⟨?_, ?_, ?_⟩
  · intro h
    unfold MCP23017_add
    rw [if_pos h]
  · intro h
    unfold MCP23017_add
    by_cases h7 : hw > 0x07
    · rw [if_pos h7]
    · rw [if_neg h7, h]
  · intro i hhw hfind ok slots' log' hinit
    obtain ⟨-, hlt, -⟩ := findFreeFrom_some nbIC 0 i hfind
    have hspec := initIc_spec nbIC env slots log i bus hw (by omega) hhw ok slots' log' hinit
    constructor
    · intro hok
      subst hok
      refine ⟨?_, ?_⟩
      · simp [MCP23017_add, hfind, hinit, (show ¬ hw > 0x07 by omega)]
      · rw [(hspec.2.1 rfl).2.1]
    · intro hok
      subst hok
      refine ⟨?_, hspec.2.2.1 rfl⟩
      simp [MCP23017_add, hfind, hinit, (show ¬ hw > 0x07 by omega)]

/-- Witness for `C7_add_slot_management`: a one-chip table over a healthy
bus; `add` succeeds on slot 0 and marks it in use. -/
theorem C7_add_slot_management_witness :
    (0 : Nat) ≤ 7 ∧ findFreeFrom freeSlots 0 1 = some 0 ∧
    ((MCP23017_initIc 1 goodEnv freeSlots [] 0 0 0).1 = true →
      MCP23017_add 1 goodEnv freeSlots [] 0 0
        = (some 0, (MCP23017_initIc 1 goodEnv freeSlots [] 0 0 0).2.1,
           (MCP23017_initIc 1 goodEnv freeSlots [] 0 0 0).2.2) ∧
      ((MCP23017_initIc 1 goodEnv freeSlots [] 0 0 0).2.1 0).used = true) := by
  refine ⟨by decide, by decide, ?_⟩
  exact ((C7_add_slot_management 1 goodEnv freeSlots [] 0 0).2.2 0 (by decide) (by decide)
    (MCP23017_initIc 1 goodEnv freeSlots [] 0 0 0).1
    (MCP23017_initIc 1 goodEnv freeSlots [] 0 0 0).2.1
    (MCP23017_initIc 1 goodEnv freeSlots [] 0 0 0).2.2 rfl).1
